import Mathlib

/-!
Verification development for the docflow repository: a shallow embedding of
the extraction orchestration engine (src/docflow/core/extraction/engine.py),
the provider options model (src/docflow/core/providers/base.py), the SDK
client dispatch (src/docflow/sdk/client.py) and the HTTP extract handler
(service/handlers/http_extract.py), together with theorems settling the
frozen claims about those components.

Conventions of the embedding:
* JSON values, schemas, schema dictionaries and numeric (float) values are
  abstract type parameters `Data`, `Schema`, `Dict`, `Num`: the claims under
  study never inspect their structure, only thread them through.
* Schema validation and normalization live in `docflow.core.models.schema_defs`,
  which is not part of the sources at hand; they are bundled as an abstract
  `SchemaEngine` (validation returns `Except String Unit`, the `String` being
  the Python exception message, normalization is a total function).
* The model provider is an external black box.  It is modelled as an oracle
  indexed by the number of provider calls made so far in the request: call
  number `k` either returns JSON data or raises a `ProviderError`.  Prompt
  strings do not influence the oracle (the provider is fully nondeterministic
  in them), so prompt composition is not modelled.
* Python truthiness of strings (`x or y` treats `""` like `None`) is modelled
  explicitly by `pyStrOr` / `pyStrOrD`.
* Exceptions are modelled with `Except`; the `DFError` type mirrors the error
  taxonomy of `docflow.core.errors` (not under the sources; modelled from the
  spec's error taxonomy section).
-/

universe u v w x

/-- Python `a or b` on optional strings: `None` and `""` are falsy. -/
def pyStrOr (a b : Option String) : Option String :=
  match a with
  | some s => if s = "" then b else some s
  | none => b

/-- Python `a or b` where the fallback is a plain string. -/
def pyStrOrD (a : Option String) (b : String) : String :=
  match a with
  | some s => if s = "" then b else s
  | none => b

/-- Python `a if a is not None else b` on options (no truthiness). -/
def pyNullOr {α : Type u} (a b : Option α) : Option α :=
  match a with
  | some v => some v
  | none => b

/-- Modelled from the spec: the error taxonomy of `docflow.core.errors` and
`docflow.sdk.errors` (modules not under the sources at hand).  The
`validationError` constructor stands for any exception raised by
`validate_output`, carrying its message. -/
inductive DFError where
  | documentError (msg : String)
  | extractionError (msg : String)
  | providerError (msg : String)
  | validationError (msg : String)
  | configError (msg : String)
  deriving Repr, DecidableEq

/-- Outcome of one `provider.generate_structured` call: JSON data, or a
`ProviderError`. -/
inductive GenResult (Data : Type u) where
  | ok (data : Data)
  | perr (msg : String)
  deriving Repr, DecidableEq

/-- The external model provider, as an oracle over the sequence of calls made
on it during one request.  `gen k` is the outcome of the `k`-th call (counted
from 0 across the whole request, since one provider instance is shared).
`last_model n` / `last_usage n` model the mutable `last_model` / `last_usage`
attributes as observed after `n` calls have completed. -/
structure Provider (Data : Type u) where
  gen : Nat → GenResult Data
  last_model : Nat → Option String
  last_usage : Nat → Option Data

/-- Schema validation and normalization capability
(`docflow.core.models.schema_defs`, not under the sources at hand).
`validate_output` returns the exception message on failure. -/
structure SchemaEngine (Data : Type u) (Schema : Type v) where
  validate_output : Schema → Data → Except String Unit
  normalize_output : Schema → Data → Data

/-- src/docflow/core/providers/base.py, `ProviderOptions` dataclass.  All
fields default to `None`.  `Num` abstracts Python floats. -/
structure ProviderOptions (Num : Type x) where
  model_name : Option String := none
  temperature : Option Num := none
  top_p : Option Num := none
  max_output_tokens : Option Int := none
  attachment_strategy : Option String := none
  deriving Repr, DecidableEq

/-- src/docflow/core/providers/base.py lines 21-32, `ProviderOptions.merged`.
Note the asymmetry of the source: `model_name` and `attachment_strategy` use
Python `or` (truthiness: `""` falls back to the base), while `temperature`,
`top_p` and `max_output_tokens` use an explicit `is None` test. -/
def ProviderOptions.merged {Num : Type x} (self : ProviderOptions Num)
    (override : Option (ProviderOptions Num)) : ProviderOptions Num :=
  match override with
  | none => self
  | some o =>
      { model_name := pyStrOr o.model_name self.model_name
        temperature := pyNullOr o.temperature self.temperature
        top_p := pyNullOr o.top_p self.top_p
        max_output_tokens := pyNullOr o.max_output_tokens self.max_output_tokens
        attachment_strategy := pyStrOr o.attachment_strategy self.attachment_strategy }

/-- Modelled from the spec: the configuration recognized by the core
(`docflow.core.config`, not under the sources at hand): default model name,
temperature and output-token cap, the request-wide document cap
`MAX_DOCS_PER_EXTRACTION`, and the system default multi mode. -/
structure CoreConfig (Num : Type x) where
  DEFAULT_MODEL_NAME : String
  DEFAULT_TEMPERATURE : Num
  DEFAULT_MAX_OUTPUT_TOKENS : Int
  MAX_DOCS_PER_EXTRACTION : Nat
  DEFAULT_MULTI_MODE : String

/-- Modelled from the spec: `ExtractionProfile`
(`docflow.core.models.profiles`, not under the sources at hand) — a named
template bundling target schema, prompt text, system instruction, default
aggregation mode and default provider options; fields are optional exactly as
the engine's attribute accesses require. -/
structure ExtractionProfile (Schema : Type v) (Num : Type x) where
  name : String
  schema : Option Schema := none
  mode : Option String := none
  prompt : Option String := none
  description : Option String := none
  system_instruction : Option String := none
  multi_mode_default : Option String := none
  provider_options : Option (ProviderOptions Num) := none

/-- Modelled from the spec: the polymorphic document source
(`docflow.core.models.documents`, not under the sources at hand), a tagged
union over GCS objects, HTTP URLs, local files and raw text. -/
inductive DocSource where
  | gcs (uri : String) (name : Option String)
  | http (url : String) (name : Option String)
  | file (path : String)
  | rawText (text : String) (name : Option String)
  deriving Repr, DecidableEq

/-- Modelled from the spec: the external document-loading and naming
capability (`display_name()` and `load_content` of
`docflow.core.models.documents`, not under the sources at hand). -/
structure DocEnv (Data : Type u) where
  display_name : DocSource → String
  load_content : DocSource → Data

/-- One attachment value: loaded bytes, or a URI string passed through. -/
inductive AttachVal (Data : Type u) where
  | bytes (content : Data)
  | uriStr (uri : String)
  deriving Repr, DecidableEq

/-- Result metadata (engine.py lines 162-168). -/
structure ResultMeta (Data : Type u) where
  model : Option String
  usage : Option Data
  docs : List String
  mode : String
  profile : Option String

/-- engine.py lines 16-22, `ExtractionResult`. -/
structure ExtractionResult (Data : Type u) where
  data : Data
  meta : ResultMeta Data

/-- engine.py lines 25-34, `MultiResult`. -/
structure MultiResult (Data : Type u) where
  per_file : List (ExtractionResult Data)
  aggregate : Option (ExtractionResult Data)

/-- engine.py lines 252-255, `GroupedItemResult`. -/
structure GroupedItemResult (Data : Type u) where
  group_id : String
  result : ExtractionResult Data

/-- engine.py lines 258-263, `GroupedResult`. -/
structure GroupedResult (Data : Type u) where
  groups : List (GroupedItemResult Data)

/-- The `schema` argument of `extract` (`InternalSchema | dict | None`). -/
inductive SchemaArg (Dict : Type w) (Schema : Type v) where
  | none
  | dict (d : Dict)
  | internal (s : Schema)

/-- engine.py lines 39-48, `_resolve_schema`. -/
def resolve_schema {Dict : Type w} {Schema : Type v} {Num : Type x}
    (parse_schema : Dict → Schema) (schema : SchemaArg Dict Schema)
    (profile : Option (ExtractionProfile Schema Num)) : Option Schema :=
  match profile with
  | some p =>
      match p.schema with
      | some s => some s
      | none => resolveArg parse_schema schema
  | none => resolveArg parse_schema schema
where
  resolveArg (parse_schema : Dict → Schema) :
      SchemaArg Dict Schema → Option Schema
    | .dict d => some (parse_schema d)
    | .internal s => some s
    | .none => none

/-- engine.py lines 51-55, `_resolve_multi_mode`: Python
`multi_mode or (profile.multi_mode_default if profile else None) or
config.DEFAULT_MULTI_MODE`, then membership in
`{"per_file", "aggregate", "both"}`. -/
def resolve_multi_mode {Schema : Type v} {Num : Type x} (cfg : CoreConfig Num)
    (profile : Option (ExtractionProfile Schema Num))
    (multi_mode : Option String) : Except DFError String :=
  let mode := pyStrOrD multi_mode
    (pyStrOrD (profile.bind (·.multi_mode_default)) cfg.DEFAULT_MULTI_MODE)
  if mode = "per_file" ∨ mode = "aggregate" ∨ mode = "both" then
    Except.ok mode
  else
    Except.error (.extractionError ("Invalid multi-mode: " ++ mode))

/-- engine.py lines 58-68, `_merge_options`: hardcoded config defaults, then
profile provider options, then caller options. -/
def merge_options {Schema : Type v} {Num : Type x} (cfg : CoreConfig Num)
    (profile : Option (ExtractionProfile Schema Num))
    (options : Option (ProviderOptions Num)) : ProviderOptions Num :=
  let base : ProviderOptions Num :=
    { model_name := some cfg.DEFAULT_MODEL_NAME
      temperature := some cfg.DEFAULT_TEMPERATURE
      max_output_tokens := some cfg.DEFAULT_MAX_OUTPUT_TOKENS }
  let base := base.merged (profile.bind (·.provider_options))
  base.merged options

/-- engine.py lines 134-157: the repair loop of `_single_call`.  `fuel` is
the remaining number of loop iterations (`range(max(1, repair_attempts))`),
`last` / `errMsg` are the loop-carried invalid JSON and validation message
(in the source they only feed the repair prompt, which the provider oracle
abstracts), `origErr` is the message of the original validation error, and
`k` is the number of provider calls made so far.  When the fuel runs out
without a valid repair, the `for ... else` clause of the source re-raises the
ORIGINAL validation error (the bare `raise` re-raises `exc`). -/
def repair_loop {Data : Type u} {Schema : Type v} (E : SchemaEngine Data Schema)
    (P : Provider Data) (s : Schema) :
    Nat → Data → String → String → Nat → Except DFError Data × Nat
  | 0, _, _, origErr, k => (Except.error (.validationError origErr), k)
  | fuel + 1, _last, _errMsg, origErr, k =>
      match P.gen k with
      | .perr m => (Except.error (.providerError m), k + 1)
      | .ok repaired =>
          match E.validate_output s repaired with
          | .ok _ => (Except.ok (E.normalize_output s repaired), k + 1)
          | .error repairExc =>
              repair_loop E P s fuel repaired repairExc origErr (k + 1)

/-- engine.py lines 104-169, `_single_call`.  `k` is the number of provider
calls made before this one (the provider instance is shared across the
request).  Returns the result together with the updated call count.
`attachments` is threaded for fidelity to the source signature but does not
influence the provider oracle. -/
def single_call {Data : Type u} {Schema : Type v} {Num : Type x}
    (E : SchemaEngine Data Schema) (P : Provider Data)
    (internal_schema : Option Schema) (options : Option (ProviderOptions Num))
    (doc_names : List String) (mode : String)
    (profile : Option (ExtractionProfile Schema Num))
    (_attachments : List (String × AttachVal Data)) (repair_attempts : Int)
    (k : Nat) : Except DFError (ExtractionResult Data) × Nat :=
  match P.gen k with
  | .perr m => (Except.error (.providerError m), k + 1)
  | .ok data =>
      let payloadAndCount : Except DFError Data × Nat :=
        match internal_schema with
        | none => (Except.ok data, k + 1)
        | some s =>
            match E.validate_output s data with
            | .ok _ => (Except.ok (E.normalize_output s data), k + 1)
            | .error exc =>
                -- `if repair_attempts and repair_attempts > 0`
                if 0 < repair_attempts then
                  repair_loop E P s (max 1 repair_attempts).toNat data exc exc
                    (k + 1)
                else
                  (Except.error (.validationError exc), k + 1)
      match payloadAndCount with
      | (Except.error e, k2) => (Except.error e, k2)
      | (Except.ok payload, k2) =>
          (Except.ok
            { data := payload
              meta :=
                { model := pyStrOr (P.last_model k2)
                    (options.bind (·.model_name))
                  usage := P.last_usage k2
                  docs := doc_names
                  mode := mode
                  profile := profile.map (·.name) } }, k2)

/-- How many of the request's documents were actually loaded
(`load_content` calls) and how many provider calls were made.  Used to state
the fail-fast guarantees ("before loading any document", "zero provider
calls"). -/
structure ExtractTrace where
  docs_loaded : Nat
  provider_calls : Nat
  deriving Repr, DecidableEq

/-- One prepared attachment (engine.py lines 195-205): the display name, the
attachment value, and whether `load_content` was invoked for it. -/
structure LoadedDoc (Data : Type u) where
  name : String
  content : AttachVal Data
  loaded : Bool

/-- engine.py lines 196-204 (loop body): URI passthrough for GCS/HTTP sources
under the `"uri"` strategy, eager byte loading otherwise. -/
def load_attachment {Data : Type u} (env : DocEnv Data) (strategy : String)
    (doc : DocSource) : LoadedDoc Data :=
  let name := env.display_name doc
  match doc with
  | .gcs uri _ =>
      if strategy = "uri" then ⟨name, .uriStr uri, false⟩
      else ⟨name, .bytes (env.load_content doc), true⟩
  | .http url _ =>
      if strategy = "uri" then ⟨name, .uriStr url, false⟩
      else ⟨name, .bytes (env.load_content doc), true⟩
  | _ => ⟨name, .bytes (env.load_content doc), true⟩

/-- The per-file loop of `extract` (engine.py lines 209-225): one
`_single_call` per loaded document, in input order, threading the provider
call counter; the first raised error aborts the loop. -/
def run_per_file {Data : Type u} {Schema : Type v} {Num : Type x}
    (E : SchemaEngine Data Schema) (P : Provider Data)
    (internal_schema : Option Schema) (eff : ProviderOptions Num)
    (profile : Option (ExtractionProfile Schema Num)) (repair_attempts : Int) :
    List (LoadedDoc Data) → Nat →
      Except DFError (List (ExtractionResult Data)) × Nat
  | [], k => (Except.ok [], k)
  | d :: rest, k =>
      match single_call E P internal_schema (some eff) [d.name] "per_file"
        profile [(d.name, d.content)] repair_attempts k with
      | (Except.error e, k2) => (Except.error e, k2)
      | (Except.ok r, k2) =>
          match run_per_file E P internal_schema eff profile repair_attempts
            rest k2 with
          | (Except.error e, k3) => (Except.error e, k3)
          | (Except.ok rs, k3) => (Except.ok (r :: rs), k3)

/-- The result shapes returned by `extract` (engine.py lines 243-247). -/
inductive ExtractOutput (Data : Type u) where
  | single (r : ExtractionResult Data)
  | perFile (rs : List (ExtractionResult Data))
  | multi (m : MultiResult Data)

/-- engine.py lines 174-247, `extract`.  Guards (empty input, document cap)
come first, then schema / mode / options resolution, then attachment
preparation, then the per-file and/or aggregate calls.  The second component
records how many documents were loaded and how many provider calls were
made. -/
def extract {Data : Type u} {Schema : Type v} {Dict : Type w} {Num : Type x}
    (cfg : CoreConfig Num) (E : SchemaEngine Data Schema) (P : Provider Data)
    (parse_schema : Dict → Schema) (env : DocEnv Data)
    (docs : List DocSource) (schema : SchemaArg Dict Schema)
    (profile : Option (ExtractionProfile Schema Num))
    (options : Option (ProviderOptions Num)) (multi_mode : Option String)
    (repair_attempts : Int) :
    Except DFError (ExtractOutput Data) × ExtractTrace :=
  if docs.isEmpty then
    (Except.error (.documentError "No documents provided"), ⟨0, 0⟩)
  else if cfg.MAX_DOCS_PER_EXTRACTION < docs.length then
    (Except.error (.extractionError "Too many documents for a single extraction"),
      ⟨0, 0⟩)
  else
    let internal_schema := resolve_schema parse_schema schema profile
    match resolve_multi_mode cfg profile multi_mode with
    | Except.error e => (Except.error e, ⟨0, 0⟩)
    | Except.ok mode =>
        let eff := merge_options cfg profile options
        let strategy := pyStrOrD eff.attachment_strategy "bytes"
        let loaded := docs.map (load_attachment env strategy)
        let nloads := (loaded.filter (·.loaded)).length
        let stepPF :=
          if mode = "per_file" ∨ mode = "both" then
            run_per_file E P internal_schema eff profile repair_attempts
              loaded 0
          else (Except.ok [], 0)
        match stepPF with
        | (Except.error e, k1) => (Except.error e, ⟨nloads, k1⟩)
        | (Except.ok results, k1) =>
            if mode = "aggregate" ∨ mode = "both" then
              match single_call E P internal_schema (some eff)
                (loaded.map (·.name)) "aggregate" profile
                (loaded.map (fun d => (d.name, d.content))) repair_attempts
                k1 with
              | (Except.error e, k2) => (Except.error e, ⟨nloads, k2⟩)
              | (Except.ok agg, k2) =>
                  if mode = "aggregate" then
                    (Except.ok (.single agg), ⟨nloads, k2⟩)
                  else
                    (Except.ok (.multi ⟨results, some agg⟩), ⟨nloads, k2⟩)
            else
              (Except.ok (.perFile results), ⟨nloads, k1⟩)

/-- The group loop of `extract_grouped` (engine.py lines 285-313): per group,
prepare attachments (the strategy is re-read inside the loop as in the
source), run one aggregate-style `_single_call` with mode label `"grouped"`,
and collect the results in caller group order. -/
def run_groups {Data : Type u} {Schema : Type v} {Num : Type x}
    (E : SchemaEngine Data Schema) (P : Provider Data) (env : DocEnv Data)
    (internal_schema : Option Schema) (eff : ProviderOptions Num)
    (profile : Option (ExtractionProfile Schema Num)) (repair_attempts : Int) :
    List (String × List DocSource) → Nat → Nat →
      Except DFError (List (GroupedItemResult Data)) × ExtractTrace
  | [], k, loads => (Except.ok [], ⟨loads, k⟩)
  | (gid, gdocs) :: rest, k, loads =>
      let strategy := pyStrOrD eff.attachment_strategy "bytes"
      let loaded := gdocs.map (load_attachment env strategy)
      let loads2 := loads + (loaded.filter (·.loaded)).length
      match single_call E P internal_schema (some eff) (loaded.map (·.name))
        "grouped" profile (loaded.map (fun d => (d.name, d.content)))
        repair_attempts k with
      | (Except.error e, k2) => (Except.error e, ⟨loads2, k2⟩)
      | (Except.ok r, k2) =>
          match run_groups E P env internal_schema eff profile repair_attempts
            rest k2 loads2 with
          | (Except.error e, tr) => (Except.error e, tr)
          | (Except.ok items, tr) => (Except.ok (⟨gid, r⟩ :: items), tr)

/-- engine.py lines 266-315, `extract_grouped`.  Guards (empty groups,
request-wide document cap over the sum of group sizes) come first. -/
def extract_grouped {Data : Type u} {Schema : Type v} {Dict : Type w}
    {Num : Type x} (cfg : CoreConfig Num) (E : SchemaEngine Data Schema)
    (P : Provider Data) (parse_schema : Dict → Schema) (env : DocEnv Data)
    (docs_groups : List (String × List DocSource))
    (schema : SchemaArg Dict Schema)
    (profile : Option (ExtractionProfile Schema Num))
    (options : Option (ProviderOptions Num)) (repair_attempts : Int) :
    Except DFError (GroupedResult Data) × ExtractTrace :=
  if docs_groups.isEmpty then
    (Except.error (.documentError "No groups provided"), ⟨0, 0⟩)
  else if cfg.MAX_DOCS_PER_EXTRACTION <
      (docs_groups.map (fun g => g.2.length)).sum then
    (Except.error (.extractionError "Too many documents for a single extraction"),
      ⟨0, 0⟩)
  else
    let internal_schema := resolve_schema parse_schema schema profile
    let eff := merge_options cfg profile options
    match run_groups E P env internal_schema eff profile repair_attempts
      docs_groups 0 0 with
    | (Except.error e, tr) => (Except.error e, tr)
    | (Except.ok items, tr) => (Except.ok ⟨items⟩, tr)

/-- src/docflow/sdk/client.py lines 117-128: the local branch of
`DocflowClient._execute`.  File paths become `FileSource`s, a dict schema is
parsed, and the core `extract` is invoked WITHOUT forwarding
`repair_attempts`, `workers`, `model` or `parameters` — `repair_attempts`
stays at the core default `0` and no `options` argument is passed.  The
unused parameters are kept in the signature to mirror `_execute`. -/
def client_execute_local {Data : Type u} {Schema : Type v} {Dict : Type w}
    {Num : Type x} {PDict : Type} (cfg : CoreConfig Num)
    (E : SchemaEngine Data Schema) (P : Provider Data)
    (parse_schema : Dict → Schema) (env : DocEnv Data)
    (files : List String) (schema : SchemaArg Dict Schema)
    (profile : Option (ExtractionProfile Schema Num)) (multi_mode : String)
    (_service_mode : Option String) (_workers : Option Int)
    (_model : Option String) (_parameters : Option PDict)
    (_repair_attempts : Int) :
    Except DFError (ExtractOutput Data) × ExtractTrace :=
  let sources := files.map DocSource.file
  let internal_schema : SchemaArg Dict Schema :=
    match schema with
    | .dict d => .internal (parse_schema d)
    | s => s
  extract cfg E P parse_schema env sources internal_schema profile none
    (some multi_mode) 0

/-- Python `str.lower()`, character by character (the kernel-reducible
equivalent of `String.toLower`). -/
def pyLower (s : String) : String := String.mk (s.data.map Char.toLower)

/-- Python `s.startswith(p)`, character by character (the kernel-reducible
equivalent of `String.startsWith`). -/
def pyStartsWith (s p : String) : Bool := p.data.isPrefixOf s.data

/-- src/docflow/sdk/client.py lines 156-164, `_map_mode` inside
`_execute_remote`: lower-case, map `aggregate` to the service mode `single`,
pass `per_file` (and anything unrecognized) through, and reject `both` with a
`ConfigError`. -/
def map_mode (m : String) : Except DFError String :=
  let m := pyLower m
  if m = "per_file" then Except.ok "per_file"
  else if m = "aggregate" then Except.ok "single"
  else if m = "both" then
    Except.error (.configError
      "Remote mode does not support multi=both; use per_file or aggregate (single) or grouped")
  else Except.ok m

/-- The JSON payload `_execute_remote` would POST to `/extract`
(src/docflow/sdk/client.py lines 180-194). -/
structure RemotePayload (GroupsTy PDict : Type) where
  profile_path : String
  mode : String
  files : Option (List String)
  groups : Option GroupsTy
  workers : Option Int
  model : Option String
  parameters : Option (List (String × PDict))
  repair_enabled : Bool
  repair_max_attempts : Int
  deriving Repr, DecidableEq

/-- src/docflow/sdk/client.py lines 141-196: `_execute_remote` up to (but not
including) the HTTP POST.  An `Except.error` means a `ConfigError` is raised
before any HTTP request is sent; `Except.ok` carries the payload that would
be posted.  Mirrors the source order: profile check, mode resolution
(`service_mode.lower() if service_mode else _map_mode(multi_mode)`, with
Python truthiness on `service_mode`), URI validation, file/group presence
checks, then payload construction. -/
def execute_remote_payload {GroupsTy PDict : Type}
    (profile_name : Option String) (multi_mode : String)
    (service_mode : Option String) (files : List String)
    (groups : Option GroupsTy) (groupsEmpty : GroupsTy → Bool)
    (workers : Option Int) (model : Option String)
    (parameters : List (String × Option PDict)) (repair_attempts : Int) :
    Except DFError (RemotePayload GroupsTy PDict) :=
  match profile_name with
  | none => Except.error (.configError "Remote mode requires a profile path")
  | some pname =>
      let resolvedModeE : Except DFError String :=
        match service_mode with
        | some sm => if sm = "" then map_mode multi_mode
                     else Except.ok (pyLower sm)
        | none => map_mode multi_mode
      match resolvedModeE with
      | Except.error e => Except.error e
      | Except.ok resolved_mode =>
          let validList := files.all (fun f =>
            pyStartsWith f "gs://" || pyStartsWith f "http://" ||
              pyStartsWith f "https://")
          if ¬ validList then
            Except.error (.configError
              "Remote mode requires gs:// or http(s):// URIs")
          else if resolved_mode ≠ "grouped" ∧ files.isEmpty then
            Except.error (.configError "At least one file is required")
          else if resolved_mode = "grouped" ∧
              (match groups with
               | none => true
               | some g => groupsEmpty g) = true then
            Except.error (.configError "Grouped mode requires --groups")
          else
            let param_payload := parameters.filterMap (fun kv =>
              match kv.2 with
              | some v => some (kv.1, v)
              | none => none)
            Except.ok
              { profile_path := pname
                mode := resolved_mode
                files := if resolved_mode = "grouped" then none
                         else some files
                groups := if resolved_mode = "grouped" then groups else none
                workers := workers
                model := match model with
                         | some m => if m = "" then none else some m
                         | none => none
                parameters := if param_payload.isEmpty then none
                              else some param_payload
                repair_enabled := decide (0 < repair_attempts)
                repair_max_attempts := max 1 repair_attempts }

/-- src/service/config.py lines 12-25: the `ServiceConfig` dataclass. -/
structure ServiceConfig (Num : Type x) where
  default_model : String
  gcp_project : Option String
  location : String
  pubsub_topic_results : Option String
  default_temperature : Num
  profiles_backend : Option String := none
  profiles_bucket : Option String := none
  profiles_prefix : String := "profiles/"
  profiles_root_dir : Option String := none
  catalog_cache_ttl_seconds : Int := 600

/-- The attribute names the `ServiceConfig` dataclass
(src/service/config.py lines 12-25) actually defines. -/
def serviceConfigFields : List String :=
  ["default_model", "gcp_project", "location", "pubsub_topic_results",
   "default_temperature", "profiles_backend", "profiles_bucket",
   "profiles_prefix", "profiles_root_dir", "catalog_cache_ttl_seconds"]

/-- Python attribute access `cfg.<attr>` on a plain dataclass instance:
returns the value when the attribute exists, raises `AttributeError`
otherwise.  `val` is the oracle for the value an attribute would hold. -/
def pyGetattr (fields : List String) (val : String → Int) (attr : String) :
    Except String Int :=
  if fields.contains attr then Except.ok (val attr)
  else Except.error ("AttributeError: " ++ attr)

/-- src/service/handlers/http_extract.py lines 153-156: the effective worker
count of the `/extract` handler.
`requested_workers = payload.workers if payload.workers is not None else
max(1, cfg.default_workers)` and
`max_workers = min(max(1, requested_workers), max(1, cfg.max_workers),
len(items))`, with Python attribute access made explicit (the handler reads
`cfg.default_workers` and `cfg.max_workers`). -/
def effective_workers (fields : List String) (val : String → Int)
    (payload_workers : Option Int) (num_items : Nat) : Except String Int :=
  let requestedE : Except String Int :=
    match payload_workers with
    | some w => Except.ok w
    | none =>
        match pyGetattr fields val "default_workers" with
        | Except.error e => Except.error e
        | Except.ok dw => Except.ok (max 1 dw)
  match requestedE with
  | Except.error e => Except.error e
  | Except.ok requested =>
      match pyGetattr fields val "max_workers" with
      | Except.error e => Except.error e
      | Except.ok mw =>
          Except.ok (min (min (max 1 requested) (max 1 mw)) (num_items : Int))

/-- src/service/handlers/http_extract.py lines 32-34: a document reference in
the request payload. -/
structure DocumentRef where
  uri : String
  display_name : Option String
  deriving Repr, DecidableEq

/-- `uri.rsplit("/", 1)[-1]`: the part after the last slash (the whole string
when there is no slash). -/
def lastSegment (s : String) : String := (s.splitOn "/").getLastD ""

/-- src/service/handlers/http_extract.py lines 87-99, `_doc_name`.  The
`urlparse(uri).path` call (Python standard library) is abstracted as the
`urlparse_path` capability.  `display_name` wins when truthy; for `gs://`
URIs the last path segment is used; otherwise the last segment of the parsed
URL path, falling back to the full URI when that segment is empty. -/
def doc_name (urlparse_path : String → String) (uri : String)
    (display_name : Option String) : String :=
  let fromUri : String :=
    if pyStartsWith uri "gs://" then lastSegment uri
    else
      let seg := lastSegment (urlparse_path uri)
      if seg = "" then uri else seg
  match display_name with
  | some d => if d = "" then fromUri else d
  | none => fromUri

/-- src/service/handlers/http_extract.py lines 146-148: the work items built
for `per_file` mode — one item per file, ids `item-1`, `item-2`, ... in input
order. -/
def perFileItems (files : List DocumentRef) :
    List (String × List DocumentRef) :=
  (List.range files.length).map (fun i =>
    ("item-" ++ toString (i + 1),
      match files[i]? with
      | some f => [f]
      | none => []))

/-- The triple `_process` resolves with per unit
(src/service/handlers/http_extract.py lines 158-180):
`(item_id, df_result or None, error string or None)`. -/
def ProcOut (Data : Type u) : Type u :=
  String × Option (ExtractionResult Data) × Option String

/-- First value tagged `i` in a completion log (the value a task keyed by its
index produced). -/
def firstTagged {α : Type u} (i : Nat) : List (Nat × α) → Option α
  | [] => none
  | (j, v) :: rest => if j = i then some v else firstTagged i rest

/-- A completion log: tasks `0..` finish in the order given by `order`, each
producing `f i` tagged with its own index. -/
def collectCompleted {α : Type u} (order : List Nat) (f : Nat → α) :
    List (Nat × α) := order.map (fun i => (i, f i))

/-- `asyncio.gather` semantics: whatever order the `n` tasks complete in,
the gathered list is indexed by task position, not completion position. -/
def reassemble {α : Type u} (n : Nat) (completed : List (Nat × α)) :
    List (Option α) := (List.range n).map (fun i => firstTagged i completed)

/-- src/service/handlers/http_extract.py lines 102-103, `_result_obj`
(flattened: `meta` fields inlined). -/
structure RespObj (Data : Type u) where
  data : Data
  model : String
  docs : List String
  mode : String
  profile : String

/-- src/service/handlers/http_extract.py lines 195-205: the `per_file`
response assembly.  Walks the gathered results with their running index
`idx`; any unit error raises HTTP 502 immediately; otherwise the response
object for position `idx` is built from `files[idx]` (its display name and
URI) and that unit's extraction payload. -/
def per_file_assemble {Data : Type u} (urlparse_path : String → String)
    (model_used : String) (profile_path : String) (files : List DocumentRef) :
    Nat → List (ProcOut Data) → Except String (List (RespObj Data))
  | _, [] => Except.ok []
  | idx, (_, dfRes, err) :: rest =>
      match err with
      | some e => Except.error e
      | none =>
          let name : Option String :=
            match files[idx]? with
            | some f => f.display_name
            | none => none
          let uri : String :=
            match files[idx]? with
            | some f => f.uri
            | none => "item-" ++ toString (idx + 1)
          match dfRes with
          | none => Except.error "AttributeError"
          | some r =>
              match per_file_assemble urlparse_path model_used profile_path
                files (idx + 1) rest with
              | Except.error e => Except.error e
              | Except.ok objs =>
                  Except.ok
                    ({ data := r.data
                       model := model_used
                       docs := [doc_name urlparse_path uri name]
                       mode := "per_file"
                       profile := profile_path } :: objs)

/-! ## Helper lemmas about the repair loop -/

section RepairLemmas

variable {Data : Type u} {Schema : Type v}
variable (E : SchemaEngine Data Schema) (P : Provider Data) (s : Schema)

/-- If every call the repair loop makes returns data that fails validation,
the loop exhausts its fuel and the `for ... else` branch re-raises the
ORIGINAL validation error, after exactly `fuel` further provider calls. -/
theorem repair_loop_exhaust (d : Nat → Data) (e : Nat → String) :
    ∀ (fuel k : Nat) (lastJ : Data) (msg origErr : String),
      (∀ j, j < fuel → P.gen (k + j) = .ok (d (k + j))) →
      (∀ j, j < fuel →
        E.validate_output s (d (k + j)) = .error (e (k + j))) →
      repair_loop E P s fuel lastJ msg origErr k =
        (Except.error (.validationError origErr), k + fuel) := by
  intro fuel
  induction fuel with
  | zero => intro k lastJ msg origErr _ _; simp [repair_loop]
  | succ f ih =>
      intro k lastJ msg origErr hgen hval
      have h0 : P.gen k = .ok (d k) := by
        have := hgen 0 (Nat.succ_pos f); simpa using this
      have h0v : E.validate_output s (d k) = .error (e k) := by
        have := hval 0 (Nat.succ_pos f); simpa using this
      have step := ih (k + 1) (d k) (e k) origErr
        (fun j hj => by
          have := hgen (j + 1) (by omega)
          simpa [Nat.add_assoc, Nat.add_comm 1 j] using this)
        (fun j hj => by
          have := hval (j + 1) (by omega)
          simpa [Nat.add_assoc, Nat.add_comm 1 j] using this)
      simp only [repair_loop, h0, h0v, step]
      congr 1
      omega

/-- If the first `j` calls the repair loop makes fail validation and call
`j` (relative to the loop's start) passes, the loop returns the normalized
repaired output immediately, after exactly `j + 1` further provider calls. -/
theorem repair_loop_success (d : Nat → Data) (e : Nat → String)
    (good : Data) :
    ∀ (j fuel k : Nat) (lastJ : Data) (msg origErr : String),
      j < fuel →
      (∀ i, i < j → P.gen (k + i) = .ok (d (k + i))) →
      (∀ i, i < j → E.validate_output s (d (k + i)) = .error (e (k + i))) →
      P.gen (k + j) = .ok good →
      E.validate_output s good = .ok () →
      repair_loop E P s fuel lastJ msg origErr k =
        (Except.ok (E.normalize_output s good), k + j + 1) := by
  intro j
  induction j with
  | zero =>
      intro fuel k lastJ msg origErr hj _ _ hgood hvalid
      obtain ⟨f, rfl⟩ : ∃ f, fuel = f + 1 :=
        ⟨fuel - 1, by omega⟩
      have hgood' : P.gen k = .ok good := by simpa using hgood
      simp [repair_loop, hgood', hvalid]
  | succ j ih =>
      intro fuel k lastJ msg origErr hj hgen hval hgood hvalid
      obtain ⟨f, rfl⟩ : ∃ f, fuel = f + 1 := ⟨fuel - 1, by omega⟩
      have h0 : P.gen k = .ok (d k) := by
        have := hgen 0 (Nat.succ_pos j); simpa using this
      have h0v : E.validate_output s (d k) = .error (e k) := by
        have := hval 0 (Nat.succ_pos j); simpa using this
      have step := ih f (k + 1) (d k) (e k) origErr (by omega)
        (fun i hi => by
          have := hgen (i + 1) (by omega)
          simpa [Nat.add_assoc, Nat.add_comm 1 i] using this)
        (fun i hi => by
          have := hval (i + 1) (by omega)
          simpa [Nat.add_assoc, Nat.add_comm 1 i] using this)
        (by simpa [Nat.add_assoc, Nat.add_comm 1 j] using hgood)
        hvalid
      simp only [repair_loop, h0, h0v, step]
      congr 1
      omega

/-- If the first `j` calls the repair loop makes fail validation and call
`j` raises a `ProviderError`, that error propagates at once: no further
repair attempt is made in response to it. -/
theorem repair_loop_provider_error (d : Nat → Data) (e : Nat → String)
    (m : String) :
    ∀ (j fuel k : Nat) (lastJ : Data) (msg origErr : String),
      j < fuel →
      (∀ i, i < j → P.gen (k + i) = .ok (d (k + i))) →
      (∀ i, i < j → E.validate_output s (d (k + i)) = .error (e (k + i))) →
      P.gen (k + j) = .perr m →
      repair_loop E P s fuel lastJ msg origErr k =
        (Except.error (.providerError m), k + j + 1) := by
  intro j
  induction j with
  | zero =>
      intro fuel k lastJ msg origErr hj _ _ hbad
      obtain ⟨f, rfl⟩ : ∃ f, fuel = f + 1 := ⟨fuel - 1, by omega⟩
      have hbad' : P.gen k = .perr m := by simpa using hbad
      simp [repair_loop, hbad']
  | succ j ih =>
      intro fuel k lastJ msg origErr hj hgen hval hbad
      obtain ⟨f, rfl⟩ : ∃ f, fuel = f + 1 := ⟨fuel - 1, by omega⟩
      have h0 : P.gen k = .ok (d k) := by
        have := hgen 0 (Nat.succ_pos j); simpa using this
      have h0v : E.validate_output s (d k) = .error (e k) := by
        have := hval 0 (Nat.succ_pos j); simpa using this
      have step := ih f (k + 1) (d k) (e k) origErr (by omega)
        (fun i hi => by
          have := hgen (i + 1) (by omega)
          simpa [Nat.add_assoc, Nat.add_comm 1 i] using this)
        (fun i hi => by
          have := hval (i + 1) (by omega)
          simpa [Nat.add_assoc, Nat.add_comm 1 i] using this)
        (by simpa [Nat.add_assoc, Nat.add_comm 1 j] using hbad)
      simp only [repair_loop, h0, h0v, step]
      congr 1
      omega

end RepairLemmas

/-- The `ExtractionResult` a successful `_single_call` builds when the final
payload is `payload` and `k2` provider calls have completed (engine.py lines
162-169). -/
def mkResult {Data : Type u} {Schema : Type v} {Num : Type x}
    (P : Provider Data) (options : Option (ProviderOptions Num))
    (doc_names : List String) (mode : String)
    (profile : Option (ExtractionProfile Schema Num))
    (payload : Data) (k2 : Nat) : ExtractionResult Data :=
  { data := payload
    meta :=
      { model := pyStrOr (P.last_model k2) (options.bind (·.model_name))
        usage := P.last_usage k2
        docs := doc_names
        mode := mode
        profile := profile.map (·.name) } }

section SingleCallLemmas

variable {Data : Type u} {Schema : Type v} {Num : Type x}
variable (E : SchemaEngine Data Schema) (P : Provider Data) (s : Schema)
variable (options : Option (ProviderOptions Num)) (doc_names : List String)
variable (mode : String) (profile : Option (ExtractionProfile Schema Num))
variable (atts : List (String × AttachVal Data))

/-- With `repair_attempts = n ≥ 1`, if the initial output and all `n` repair
outputs fail validation, `_single_call` makes exactly `1 + n` provider calls
and raises the validation error of the ORIGINAL output. -/
theorem single_call_exhaust (n : Nat) (hn : 1 ≤ n) (d : Nat → Data)
    (e : Nat → String)
    (hgen : ∀ i, i < n + 1 → P.gen i = .ok (d i))
    (hval : ∀ i, i < n + 1 → E.validate_output s (d i) = .error (e i)) :
    single_call E P (some s) options doc_names mode profile atts
        ((n : Nat) : Int) 0 =
      (Except.error (.validationError (e 0)), n + 1) := by
  have h0 : P.gen 0 = .ok (d 0) := hgen 0 (by omega)
  have h0v : E.validate_output s (d 0) = .error (e 0) := hval 0 (by omega)
  have hpos : (0 : Int) < ((n : Nat) : Int) := by exact_mod_cast hn
  have hfuel : (max 1 ((n : Nat) : Int)).toNat = n := by
    have hm : max 1 ((n : Nat) : Int) = ((n : Nat) : Int) :=
      max_eq_right (by exact_mod_cast hn)
    rw [hm]; omega
  have hrep := repair_loop_exhaust E P s d e n 1 (d 0) (e 0) (e 0)
    (fun j hj => hgen (1 + j) (by omega))
    (fun j hj => hval (1 + j) (by omega))
  simp only [single_call, h0, h0v, if_pos hpos, hfuel, hrep]
  congr 1
  omega

/-- With `repair_attempts = n ≥ 1`, if the first `j ≤ n` outputs fail
validation and call `j` (0-based; `j = 0` is the initial call) returns output
that validates, `_single_call` makes exactly `j + 1` provider calls and
returns the normalized form of that valid output. -/
theorem single_call_success (n : Nat) (hn : 1 ≤ n) (j : Nat) (hj : j ≤ n)
    (d : Nat → Data) (e : Nat → String) (good : Data)
    (hgen : ∀ i, i < j → P.gen i = .ok (d i))
    (hval : ∀ i, i < j → E.validate_output s (d i) = .error (e i))
    (hgood : P.gen j = .ok good)
    (hvalid : E.validate_output s good = Except.ok ()) :
    single_call E P (some s) options doc_names mode profile atts
        ((n : Nat) : Int) 0 =
      (Except.ok (mkResult P options doc_names mode profile
        (E.normalize_output s good) (j + 1)), j + 1) := by
  cases j with
  | zero =>
      simp only [single_call, hgood, hvalid, mkResult]
  | succ jj =>
      have h0 : P.gen 0 = .ok (d 0) := hgen 0 (by omega)
      have h0v : E.validate_output s (d 0) = .error (e 0) := hval 0 (by omega)
      have hpos : (0 : Int) < ((n : Nat) : Int) := by exact_mod_cast hn
      have hfuel : (max 1 ((n : Nat) : Int)).toNat = n := by
        have hm : max 1 ((n : Nat) : Int) = ((n : Nat) : Int) :=
          max_eq_right (by exact_mod_cast hn)
        rw [hm]; omega
      have hrep := repair_loop_success E P s d e good jj n 1 (d 0) (e 0) (e 0)
        (by omega)
        (fun i hi => by
          have := hgen (i + 1) (by omega)
          simpa [Nat.add_comm 1 i] using this)
        (fun i hi => by
          have := hval (i + 1) (by omega)
          simpa [Nat.add_comm 1 i] using this)
        (by simpa [Nat.add_comm 1 jj] using hgood)
        hvalid
      have hc : 1 + jj + 1 = jj + 1 + 1 := by omega
      rw [hc] at hrep
      simp only [single_call, h0, h0v, if_pos hpos, hfuel, hrep, mkResult]

/-- A `ProviderError` on the call `_single_call` makes at position `k`
propagates at once, whatever `repair_attempts` is. -/
theorem single_call_provider_error (sch : Option Schema) (r : Int) (k : Nat)
    (m : String) (h : P.gen k = .perr m) :
    single_call E P sch options doc_names mode profile atts r k =
      (Except.error (.providerError m), k + 1) := by
  simp only [single_call, h]

/-- With `repair_attempts = n`, if calls `0..j` all return invalid output
(`j < n`, so the repair budget is not yet exhausted) and the next repair call
raises a `ProviderError`, that error propagates at once after `j + 2` calls:
no repair is attempted in response to a provider failure. -/
theorem single_call_repair_provider_error (n : Nat) (j : Nat) (hj : j < n)
    (d : Nat → Data) (e : Nat → String) (m : String)
    (hgen : ∀ i, i ≤ j → P.gen i = .ok (d i))
    (hval : ∀ i, i ≤ j → E.validate_output s (d i) = .error (e i))
    (hbad : P.gen (j + 1) = .perr m) :
    single_call E P (some s) options doc_names mode profile atts
        ((n : Nat) : Int) 0 =
      (Except.error (.providerError m), j + 2) := by
  have h0 : P.gen 0 = .ok (d 0) := hgen 0 (by omega)
  have h0v : E.validate_output s (d 0) = .error (e 0) := hval 0 (by omega)
  have hpos : (0 : Int) < ((n : Nat) : Int) := by exact_mod_cast (by omega : 1 ≤ n)
  have hfuel : (max 1 ((n : Nat) : Int)).toNat = n := by
    have hm : max 1 ((n : Nat) : Int) = ((n : Nat) : Int) :=
      max_eq_right (by exact_mod_cast (by omega : 1 ≤ n))
    rw [hm]; omega
  have hrep := repair_loop_provider_error E P s d e m j n 1 (d 0) (e 0) (e 0)
    hj
    (fun i hi => by
      have := hgen (i + 1) (by omega)
      simpa [Nat.add_comm 1 i] using this)
    (fun i hi => by
      have := hval (i + 1) (by omega)
      simpa [Nat.add_comm 1 i] using this)
    (by simpa [Nat.add_comm 1 j] using hbad)
  have hc : 1 + j + 1 = j + 2 := by omega
  rw [hc] at hrep
  simp only [single_call, h0, h0v, if_pos hpos, hfuel, hrep]

/-- If the initial output validates, `_single_call` returns at once (one
provider call, no repair), whatever `repair_attempts` is. -/
theorem single_call_valid_immediate (r : Int) (k : Nat) (good : Data)
    (hgood : P.gen k = .ok good)
    (hvalid : E.validate_output s good = Except.ok ()) :
    single_call E P (some s) options doc_names mode profile atts r k =
      (Except.ok (mkResult P options doc_names mode profile
        (E.normalize_output s good) (k + 1)), k + 1) := by
  simp only [single_call, hgood, hvalid, mkResult]

/-- With no schema, `_single_call` returns the raw output unvalidated after
one provider call, whatever `repair_attempts` is. -/
theorem single_call_no_schema (r : Int) (k : Nat) (data : Data)
    (h : P.gen k = .ok data) :
    single_call E P none options doc_names mode profile atts r k =
      (Except.ok (mkResult P options doc_names mode profile data (k + 1)),
        k + 1) := by
  simp only [single_call, h, mkResult]

/-- With `repair_attempts ≤ 0`, a validation failure of the initial output
propagates at once: exactly one provider call, no repair. -/
theorem single_call_invalid_no_repair (r : Int) (hr : r ≤ 0) (k : Nat)
    (data : Data) (e : String) (h : P.gen k = .ok data)
    (hv : E.validate_output s data = .error e) :
    single_call E P (some s) options doc_names mode profile atts r k =
      (Except.error (.validationError e), k + 1) := by
  have : ¬ (0 < r) := by omega
  simp only [single_call, h, hv, if_neg this]

end SingleCallLemmas

/-! ## Concrete instances for counterexamples and witnesses -/

/-- Concrete schema engine on `Data := Nat`, `Schema := Unit`: `0` is the
only valid output; any other value fails validation with a message naming the
value; normalization adds `100`, so normalized output is distinguishable from
raw output. -/
def demoEngine : SchemaEngine Nat Unit where
  validate_output := fun _ d =>
    if d = 0 then Except.ok () else Except.error ("bad-" ++ toString d)
  normalize_output := fun _ d => d + 100

/-- Provider stub whose `k`-th call returns `k + 1` — always invalid for
`demoEngine`, with a distinct validation error per call. -/
def demoBadProvider : Provider Nat where
  gen := fun k => .ok (k + 1)
  last_model := fun _ => none
  last_usage := fun _ => none

/-- Provider stub returning invalid output (`5`) on call 0, then valid
output (`0`) from call 1 on. -/
def demoRepairProvider : Provider Nat where
  gen := fun k => .ok (if k = 0 then 5 else 0)
  last_model := fun _ => none
  last_usage := fun _ => none

/-- Provider stub raising a `ProviderError` on every call. -/
def demoFailProvider : Provider Nat where
  gen := fun _ => .perr "quota"
  last_model := fun _ => none
  last_usage := fun _ => none

/-- Provider stub: invalid output on call 0, `ProviderError` afterwards. -/
def demoInvalidThenFailProvider : Provider Nat where
  gen := fun k => if k = 0 then .ok 7 else .perr "network"
  last_model := fun _ => none
  last_usage := fun _ => none

/-! ## C1 — error propagated after repair exhaustion -/

/-- C1 counterexample: `repair_attempts = 1`, outputs `1` (error "bad-1")
then `2` (error "bad-2").  `_single_call` terminates with the ORIGINAL
validation error "bad-1" — not the last repair attempt's "bad-2" — so the
claim as stated is false on the code (the `for ... else` branch of engine.py
lines 155-157 re-raises `exc`, the original error, as its own comment says). -/
theorem c1_counterexample :
    single_call demoEngine demoBadProvider (some ())
        (none : Option (ProviderOptions Int)) [] "per_file" none [] 1 0 =
      (Except.error (.validationError "bad-1"), 2) ∧
    demoBadProvider.gen 1 = .ok 2 ∧
    demoEngine.validate_output () 2 = Except.error "bad-2" ∧
    "bad-1" ≠ "bad-2" :=
  ⟨rfl, rfl, rfl, by decide⟩

/-- C1 (amended): for every schema, provider and `repair_attempts = n ≥ 1`,
if the initial output and all `n` repair outputs fail validation,
`_single_call` terminates by raising the validation error of the ORIGINAL
output (not the last repair attempt's), after exactly `1 + n` provider
calls. -/
theorem c1_exhaust_raises_original_error {Data : Type u} {Schema : Type v}
    {Num : Type x} (E : SchemaEngine Data Schema) (P : Provider Data)
    (s : Schema) (options : Option (ProviderOptions Num))
    (doc_names : List String) (mode : String)
    (profile : Option (ExtractionProfile Schema Num))
    (atts : List (String × AttachVal Data)) (n : Nat) (hn : 1 ≤ n)
    (d : Nat → Data) (e : Nat → String)
    (hgen : ∀ i, i < n + 1 → P.gen i = .ok (d i))
    (hval : ∀ i, i < n + 1 → E.validate_output s (d i) = .error (e i)) :
    single_call E P (some s) options doc_names mode profile atts
        ((n : Nat) : Int) 0 =
      (Except.error (.validationError (e 0)), n + 1) :=
  single_call_exhaust E P s options doc_names mode profile atts n hn d e
    hgen hval

/-- Witness for C1's amended theorem: `n = 2`, provider outputs `1, 2, 3`,
all invalid; the call raises "bad-1" (the original error) after 3 calls. -/
theorem c1_witness :
    single_call demoEngine demoBadProvider (some ())
        (none : Option (ProviderOptions Int)) [] "per_file" none []
        ((2 : Nat) : Int) 0 =
      (Except.error (.validationError "bad-1"), 2 + 1) :=
  c1_exhaust_raises_original_error demoEngine demoBadProvider ()
    none [] "per_file" none [] 2 (by decide)
    (fun i => i + 1) (fun i => "bad-" ++ toString (i + 1))
    (fun i _ => rfl) (fun i _ => rfl)

/-! ## C2 — repair loop call counts and early exit -/

/-- C2: for every schema, provider and `repair_attempts = n ≥ 1`:
(a) if the initial output and all `n` repair outputs fail validation, the
provider is invoked exactly `1 + n` times and the call fails; and
(b) if the first `j ≤ n` outputs fail validation and call `j` (0-based, so
`j + 1 = k` total calls with `k ≤ 1 + n`) returns the first output that
validates, exactly `j + 1` provider calls occur and the returned
`ExtractionResult`'s data is the normalized form of that valid output
(remaining attempts unused). -/
theorem c2_call_counts {Data : Type u} {Schema : Type v} {Num : Type x}
    (E : SchemaEngine Data Schema) (P : Provider Data) (s : Schema)
    (options : Option (ProviderOptions Num)) (doc_names : List String)
    (mode : String) (profile : Option (ExtractionProfile Schema Num))
    (atts : List (String × AttachVal Data)) (n : Nat) (hn : 1 ≤ n)
    (d : Nat → Data) (e : Nat → String) :
    ((∀ i, i < n + 1 → P.gen i = .ok (d i)) →
     (∀ i, i < n + 1 → E.validate_output s (d i) = .error (e i)) →
     single_call E P (some s) options doc_names mode profile atts
         ((n : Nat) : Int) 0 =
       (Except.error (.validationError (e 0)), 1 + n)) ∧
    (∀ j, j ≤ n →
     (∀ i, i < j → P.gen i = .ok (d i)) →
     (∀ i, i < j → E.validate_output s (d i) = .error (e i)) →
     ∀ good, P.gen j = .ok good → E.validate_output s good = Except.ok () →
     single_call E P (some s) options doc_names mode profile atts
         ((n : Nat) : Int) 0 =
       (Except.ok (mkResult P options doc_names mode profile
         (E.normalize_output s good) (j + 1)), j + 1)) := by
  constructor
  · intro hgen hval
    have := single_call_exhaust E P s options doc_names mode profile atts n
      hn d e hgen hval
    rw [this]
    congr 1
    omega
  · intro j hj hgen hval good hgood hvalid
    exact single_call_success E P s options doc_names mode profile atts n hn
      j hj d e good hgen hval hgood hvalid

/-- Witness for C2: (a) an always-invalid provider with `n = 2` makes
exactly `3 = 1 + 2` calls; (b) a provider invalid once then valid, with
`n = 2`, makes exactly `2` calls and returns the normalized valid output
(`0` normalized to `100`). -/
theorem c2_witness :
    single_call demoEngine demoBadProvider (some ())
        (none : Option (ProviderOptions Int)) [] "per_file" none []
        ((2 : Nat) : Int) 0 =
      (Except.error (.validationError "bad-1"), 1 + 2) ∧
    single_call demoEngine demoRepairProvider (some ())
        (none : Option (ProviderOptions Int)) [] "per_file" none []
        ((2 : Nat) : Int) 0 =
      (Except.ok (@mkResult Nat Unit Int demoRepairProvider none []
        "per_file" none 100 (1 + 1)), 1 + 1) :=
  ⟨(c2_call_counts demoEngine demoBadProvider () none [] "per_file" none []
      2 (by decide) (fun i => i + 1)
      (fun i => "bad-" ++ toString (i + 1))).1 (fun i _ => rfl)
      (fun i _ => rfl),
   (c2_call_counts demoEngine demoRepairProvider () none [] "per_file" none
      [] 2 (by decide) (fun _ => 5) (fun _ => "bad-5")).2 1 (by decide)
      (fun i hi => by
        have h0 : i = 0 := by omega
        subst h0; rfl)
      (fun i _ => rfl) 0 rfl rfl⟩

/-! ## C3 — provider errors propagate without triggering repair -/

/-- C3: a `ProviderError` from `provider.generate_structured` propagates
immediately and never triggers a repair attempt:
(i) on the initial call, for any schema and any `repair_attempts`;
(ii) on any repair call (after `j + 1` invalid outputs with repair budget
left, the provider error ends the call at once after `j + 2` calls);
and the repair loop is entered only on validation failure:
(iii) a valid initial output returns after exactly one call, and
(iv) with no schema the raw output returns after exactly one call —
whatever `repair_attempts` is. -/
theorem c3_provider_errors_propagate {Data : Type u} {Schema : Type v}
    {Num : Type x} (E : SchemaEngine Data Schema) (P : Provider Data)
    (s : Schema) (options : Option (ProviderOptions Num))
    (doc_names : List String) (mode : String)
    (profile : Option (ExtractionProfile Schema Num))
    (atts : List (String × AttachVal Data)) :
    (∀ (sch : Option Schema) (r : Int) (k : Nat) (m : String),
      P.gen k = .perr m →
      single_call E P sch options doc_names mode profile atts r k =
        (Except.error (.providerError m), k + 1)) ∧
    (∀ (n j : Nat), j < n →
      ∀ (d : Nat → Data) (e : Nat → String) (m : String),
      (∀ i, i ≤ j → P.gen i = .ok (d i)) →
      (∀ i, i ≤ j → E.validate_output s (d i) = .error (e i)) →
      P.gen (j + 1) = .perr m →
      single_call E P (some s) options doc_names mode profile atts
          ((n : Nat) : Int) 0 =
        (Except.error (.providerError m), j + 2)) ∧
    (∀ (r : Int) (k : Nat) (good : Data),
      P.gen k = .ok good → E.validate_output s good = Except.ok () →
      single_call E P (some s) options doc_names mode profile atts r k =
        (Except.ok (mkResult P options doc_names mode profile
          (E.normalize_output s good) (k + 1)), k + 1)) ∧
    (∀ (r : Int) (k : Nat) (data : Data),
      P.gen k = .ok data →
      single_call E P none options doc_names mode profile atts r k =
        (Except.ok (mkResult P options doc_names mode profile data (k + 1)),
          k + 1)) := by
  refine ⟨?_, ?_, ?_, ?_⟩
  · intro sch r k m h
    exact single_call_provider_error E P options doc_names mode profile atts
      sch r k m h
  · intro n j hj d e m hgen hval hbad
    exact single_call_repair_provider_error E P s options doc_names mode
      profile atts n j hj d e m hgen hval hbad
  · intro r k good hgood hvalid
    exact single_call_valid_immediate E P s options doc_names mode profile
      atts r k good hgood hvalid
  · intro r k data h
    exact single_call_no_schema E P options doc_names mode profile atts r k
      data h

/-- Witness for C3: (i) an immediate provider failure propagates with one
call even with `repair_attempts = 5`; (ii) invalid output then a provider
failure on the repair call propagates after 2 calls with budget `3` left. -/
theorem c3_witness :
    single_call demoEngine demoFailProvider (some ())
        (none : Option (ProviderOptions Int)) [] "per_file" none [] 5 0 =
      (Except.error (.providerError "quota"), 0 + 1) ∧
    single_call demoEngine demoInvalidThenFailProvider (some ())
        (none : Option (ProviderOptions Int)) [] "per_file" none []
        ((3 : Nat) : Int) 0 =
      (Except.error (.providerError "network"), 0 + 2) :=
  ⟨(c3_provider_errors_propagate demoEngine demoFailProvider ()
      none [] "per_file" none []).1 (some ()) 5 0 "quota" rfl,
   (c3_provider_errors_propagate demoEngine demoInvalidThenFailProvider ()
      none [] "per_file" none []).2.1 3 0 (by decide) (fun _ => 7)
      (fun _ => "bad-7") "network"
      (fun i hi => by
        have h0 : i = 0 := by omega
        subst h0; rfl)
      (fun i hi => by
        have h0 : i = 0 := by omega
        subst h0; rfl) rfl⟩

/-! ## C4 — document cap is enforced before any work -/

/-- C4: whenever the total document count exceeds
`MAX_DOCS_PER_EXTRACTION` — the plain count for `extract`, the sum over all
groups for `extract_grouped` — the call fails with the size-limit
`ExtractionError` and the trace is `⟨0, 0⟩`: no document content was loaded
and no provider call was made. -/
theorem c4_doc_cap_fails_fast {Data : Type u} {Schema : Type v}
    {Dict : Type w} {Num : Type x} (cfg : CoreConfig Num)
    (E : SchemaEngine Data Schema) (P : Provider Data)
    (parse_schema : Dict → Schema) (env : DocEnv Data)
    (schema : SchemaArg Dict Schema)
    (profile : Option (ExtractionProfile Schema Num))
    (options : Option (ProviderOptions Num)) (multi_mode : Option String)
    (r : Int) :
    (∀ docs : List DocSource, cfg.MAX_DOCS_PER_EXTRACTION < docs.length →
      extract cfg E P parse_schema env docs schema profile options
          multi_mode r =
        (Except.error
          (.extractionError "Too many documents for a single extraction"),
          ⟨0, 0⟩)) ∧
    (∀ docs_groups : List (String × List DocSource),
      cfg.MAX_DOCS_PER_EXTRACTION <
          (docs_groups.map (fun g => g.2.length)).sum →
      extract_grouped cfg E P parse_schema env docs_groups schema profile
          options r =
        (Except.error
          (.extractionError "Too many documents for a single extraction"),
          ⟨0, 0⟩)) := by
  constructor
  · intro docs hdocs
    cases docs with
    | nil => simp at hdocs
    | cons a as =>
        simp only [extract]
        rw [if_neg (by simp), if_pos hdocs]
  · intro docs_groups hgs
    cases docs_groups with
    | nil => simp at hgs
    | cons g gs =>
        simp only [extract_grouped]
        rw [if_neg (by simp), if_pos hgs]

/-- Concrete core configuration for witnesses (the real values live in the
`docflow.core.config` module, which is not among the sources; any values
work for the claims, which quantify over the configuration). -/
def demoCfg : CoreConfig Int where
  DEFAULT_MODEL_NAME := "gemini-2.5-flash"
  DEFAULT_TEMPERATURE := 0
  DEFAULT_MAX_OUTPUT_TOKENS := 65535
  MAX_DOCS_PER_EXTRACTION := 1
  DEFAULT_MULTI_MODE := "per_file"

/-- Concrete document environment for witnesses. -/
def demoEnv : DocEnv Nat where
  display_name := fun d =>
    match d with
    | .file p => p
    | .gcs uri _ => uri
    | .http url _ => url
    | .rawText _ _ => "text"
  load_content := fun _ => 0

/-- Witness for C4: two documents against a cap of one — both `extract` and
`extract_grouped` fail with the size-limit error and an all-zero trace. -/
theorem c4_witness :
    extract demoCfg demoEngine demoBadProvider (fun _ : Unit => ()) demoEnv
        [DocSource.file "a.pdf", DocSource.file "b.pdf"] SchemaArg.none none
        none none 0 =
      (Except.error
        (.extractionError "Too many documents for a single extraction"),
        ⟨0, 0⟩) ∧
    extract_grouped demoCfg demoEngine demoBadProvider (fun _ : Unit => ())
        demoEnv [("g1", [DocSource.file "a.pdf", DocSource.file "b.pdf"])]
        SchemaArg.none none none 0 =
      (Except.error
        (.extractionError "Too many documents for a single extraction"),
        ⟨0, 0⟩) :=
  ⟨(c4_doc_cap_fails_fast demoCfg demoEngine demoBadProvider
      (fun _ : Unit => ()) demoEnv SchemaArg.none none none none 0).1
      [DocSource.file "a.pdf", DocSource.file "b.pdf"] (by decide),
   (c4_doc_cap_fails_fast demoCfg demoEngine demoBadProvider
      (fun _ : Unit => ()) demoEnv SchemaArg.none none none none 0).2
      [("g1", [DocSource.file "a.pdf", DocSource.file "b.pdf"])] (by decide)⟩

/-! ## C5 — multi-mode resolution precedence -/

/-- The recognized multi-mode set (engine.py line 53). -/
def recognizedMode (m : String) : Prop :=
  m = "per_file" ∨ m = "aggregate" ∨ m = "both"

instance (m : String) : Decidable (recognizedMode m) := by
  unfold recognizedMode; infer_instance

/-- The CLAIM's resolution rule, word for word: a caller-supplied
`multi_mode` always wins; otherwise the profile's `multi_mode_default` when
present; otherwise the system default `DEFAULT_MULTI_MODE`.  Written from the
claim for comparison with the source's `_resolve_multi_mode`. -/
def claimResolvedMode {Schema : Type v} {Num : Type x} (cfg : CoreConfig Num)
    (profile : Option (ExtractionProfile Schema Num))
    (mm : Option String) : String :=
  match mm with
  | some m => m
  | none =>
      match profile with
      | some p =>
          match p.multi_mode_default with
          | some d => d
          | none => cfg.DEFAULT_MULTI_MODE
      | none => cfg.DEFAULT_MULTI_MODE

/-- The AMENDED resolution rule: the same precedence, except that an empty
string counts as absent at each layer (Python `or` truthiness). -/
def amendedResolvedMode {Schema : Type v} {Num : Type x}
    (cfg : CoreConfig Num) (profile : Option (ExtractionProfile Schema Num))
    (mm : Option String) : String :=
  let fallback : String :=
    match profile with
    | some p =>
        match p.multi_mode_default with
        | some d => if d = "" then cfg.DEFAULT_MULTI_MODE else d
        | none => cfg.DEFAULT_MULTI_MODE
    | none => cfg.DEFAULT_MULTI_MODE
  match mm with
  | some m => if m = "" then fallback else m
  | none => fallback

/-- C5 counterexample: a caller-supplied `multi_mode = ""` is a caller
override under the claim's precedence, resolves to `""` (outside the
recognized set) and so should raise `ExtractionError`; the code instead
treats `""` as absent and succeeds with the system default.  The claim as
stated is false on the code. -/
theorem c5_counterexample :
    resolve_multi_mode demoCfg (none : Option (ExtractionProfile Unit Int))
        (some "") = Except.ok "per_file" ∧
    claimResolvedMode demoCfg (none : Option (ExtractionProfile Unit Int))
        (some "") = "" ∧
    ¬ recognizedMode "" := by
  refine ⟨rfl, rfl, by decide⟩

/-- C5 (amended): `_resolve_multi_mode` implements the precedence
caller override > profile `multi_mode_default` > system default, with the
amendment that an empty string counts as absent at each layer (Python
truthiness); any resolved value outside the recognized set raises
`ExtractionError`, and when that happens inside `extract` (whose
empty/size guards run first) the failure occurs with no document loaded and
no provider call made. -/
theorem c5_mode_resolution {Schema : Type v} {Num : Type x}
    (cfg : CoreConfig Num) (profile : Option (ExtractionProfile Schema Num))
    (mm : Option String) :
    (resolve_multi_mode cfg profile mm =
      (if recognizedMode (amendedResolvedMode cfg profile mm) then
        Except.ok (amendedResolvedMode cfg profile mm)
       else
        Except.error (.extractionError
          ("Invalid multi-mode: " ++ amendedResolvedMode cfg profile mm)))) ∧
    (∀ m, mm = some m → m ≠ "" → amendedResolvedMode cfg profile mm = m) ∧
    ((mm = none ∨ mm = some "") → profile = none →
      amendedResolvedMode cfg profile mm = cfg.DEFAULT_MULTI_MODE) ∧
    (∀ p d, (mm = none ∨ mm = some "") → profile = some p →
      p.multi_mode_default = some d → d ≠ "" →
      amendedResolvedMode cfg profile mm = d) ∧
    (∀ err, resolve_multi_mode cfg profile mm = Except.error err →
      ∀ (Data Dict : Type) (E : SchemaEngine Data Schema)
        (P : Provider Data) (parse_schema : Dict → Schema)
        (env : DocEnv Data) (docs : List DocSource)
        (schema : SchemaArg Dict Schema)
        (options : Option (ProviderOptions Num)) (r : Int),
        docs ≠ [] → docs.length ≤ cfg.MAX_DOCS_PER_EXTRACTION →
        extract cfg E P parse_schema env docs schema profile options mm r =
          (Except.error err, ⟨0, 0⟩)) := by
  have hmode : pyStrOrD mm
      (pyStrOrD (profile.bind (·.multi_mode_default)) cfg.DEFAULT_MULTI_MODE)
        = amendedResolvedMode cfg profile mm := by
    rcases mm with _ | m
    · rcases profile with _ | p
      · rfl
      · rcases hp : p.multi_mode_default with _ | d <;>
          simp [pyStrOrD, amendedResolvedMode, hp]
    · rcases profile with _ | p
      · by_cases hm : m = "" <;> simp [pyStrOrD, amendedResolvedMode, hm]
      · rcases hp : p.multi_mode_default with _ | d <;>
          by_cases hm : m = "" <;>
          simp [pyStrOrD, amendedResolvedMode, hm, hp]
  refine ⟨?_, ?_, ?_, ?_, ?_⟩
  · unfold resolve_multi_mode
    rw [hmode]
    simp only [recognizedMode]
  · intro m hm hne
    subst hm
    simp [amendedResolvedMode, hne]
  · intro hmm hp
    subst hp
    rcases hmm with h | h <;> subst h <;> simp [amendedResolvedMode]
  · intro p d hmm hp hd hne
    subst hp
    rcases hmm with h | h <;> subst h <;>
      simp [amendedResolvedMode, hd, hne]
  · intro err herr Data Dict E P parse_schema env docs schema options r
      hne hlen
    cases docs with
    | nil => exact absurd rfl hne
    | cons a as =>
        have hguard : ¬ (cfg.MAX_DOCS_PER_EXTRACTION < (a :: as).length) :=
          by omega
        simp only [extract]
        rw [if_neg (by simp), if_neg hguard, herr]

/-- Witness for C5's amended theorem: an unrecognized caller mode `"nope"`
resolves to itself and makes `extract` fail with the invalid-mode
`ExtractionError` before loading anything or calling the provider. -/
theorem c5_witness :
    resolve_multi_mode demoCfg (none : Option (ExtractionProfile Unit Int))
        (some "nope") =
      (if recognizedMode (amendedResolvedMode demoCfg
          (none : Option (ExtractionProfile Unit Int)) (some "nope")) then
        Except.ok (amendedResolvedMode demoCfg
          (none : Option (ExtractionProfile Unit Int)) (some "nope"))
       else
        Except.error (.extractionError
          ("Invalid multi-mode: " ++ amendedResolvedMode demoCfg
            (none : Option (ExtractionProfile Unit Int)) (some "nope")))) ∧
    extract demoCfg demoEngine demoBadProvider (fun _ : Unit => ()) demoEnv
        [DocSource.file "a.pdf"] SchemaArg.none
        (none : Option (ExtractionProfile Unit Int)) none (some "nope") 0 =
      (Except.error (.extractionError "Invalid multi-mode: nope"), ⟨0, 0⟩) :=
  ⟨(c5_mode_resolution demoCfg (none : Option (ExtractionProfile Unit Int))
      (some "nope")).1,
   (c5_mode_resolution demoCfg (none : Option (ExtractionProfile Unit Int))
      (some "nope")).2.2.2.2 (.extractionError "Invalid multi-mode: nope")
      rfl Nat Unit demoEngine demoBadProvider (fun _ : Unit => ()) demoEnv
      [DocSource.file "a.pdf"] SchemaArg.none none 0 (by decide) (by decide)⟩

/-! ## C6 — option merging and three-layer precedence -/

/-- The CLAIM's merge rule, word for word: for EACH field the override's
value when non-null, the base's value otherwise.  Written from the claim for
comparison with the source's `ProviderOptions.merged`. -/
def claimMerged {Num : Type x} (base ov : ProviderOptions Num) :
    ProviderOptions Num :=
  { model_name := pyNullOr ov.model_name base.model_name
    temperature := pyNullOr ov.temperature base.temperature
    top_p := pyNullOr ov.top_p base.top_p
    max_output_tokens := pyNullOr ov.max_output_tokens base.max_output_tokens
    attachment_strategy :=
      pyNullOr ov.attachment_strategy base.attachment_strategy }

/-- Base options with a model name, for the C6 counterexample. -/
def cxBase : ProviderOptions Int := { model_name := some "base-model" }

/-- Override options carrying the non-null (but empty) model name `""`. -/
def cxOverride : ProviderOptions Int := { model_name := some "" }

/-- C6 counterexample: with `override.model_name = some ""` — a non-null
value — `merged` keeps the BASE's model name (`"" or base` under Python
truthiness), so the claim's "override's value when non-null" is false on the
code for the string fields. -/
theorem c6_counterexample :
    (cxBase.merged (some cxOverride)).model_name = some "base-model" ∧
    (claimMerged cxBase cxOverride).model_name = some "" ∧
    cxOverride.model_name = some "" ∧
    cxBase.merged (some cxOverride) ≠ claimMerged cxBase cxOverride := by
  refine ⟨rfl, rfl, rfl, by decide⟩

/-- C6 (amended): `merged(None) = base`; for the numeric fields
(`temperature`, `top_p`, `max_output_tokens`) the override's value wins
exactly when non-null; for the string fields (`model_name`,
`attachment_strategy`) the override's value wins exactly when non-null AND
non-empty, the base's value being kept when the override is null or empty
(Python `or` truthiness); and in `_merge_options` the effective options are
the three layers — hardcoded config defaults, overridden by the profile's
`provider_options`, overridden by the caller's options — with, in
particular, a null-and-empty-free caller field always winning, the profile
winning when the caller field is absent, and the hardcoded default surviving
only when neither layer supplies the field. -/
theorem c6_merged_semantics {Schema : Type v} {Num : Type x} :
    (∀ b : ProviderOptions Num, b.merged none = b) ∧
    (∀ b o : ProviderOptions Num,
      (∀ t, o.temperature = some t →
        (b.merged (some o)).temperature = some t) ∧
      (o.temperature = none →
        (b.merged (some o)).temperature = b.temperature) ∧
      (∀ t, o.top_p = some t → (b.merged (some o)).top_p = some t) ∧
      (o.top_p = none → (b.merged (some o)).top_p = b.top_p) ∧
      (∀ t, o.max_output_tokens = some t →
        (b.merged (some o)).max_output_tokens = some t) ∧
      (o.max_output_tokens = none →
        (b.merged (some o)).max_output_tokens = b.max_output_tokens) ∧
      (∀ s, o.model_name = some s → s ≠ "" →
        (b.merged (some o)).model_name = some s) ∧
      ((o.model_name = none ∨ o.model_name = some "") →
        (b.merged (some o)).model_name = b.model_name) ∧
      (∀ s, o.attachment_strategy = some s → s ≠ "" →
        (b.merged (some o)).attachment_strategy = some s) ∧
      ((o.attachment_strategy = none ∨ o.attachment_strategy = some "") →
        (b.merged (some o)).attachment_strategy = b.attachment_strategy)) ∧
    (∀ (cfg : CoreConfig Num)
      (profile : Option (ExtractionProfile Schema Num))
      (options : Option (ProviderOptions Num)),
      merge_options cfg profile options =
        (({ model_name := some cfg.DEFAULT_MODEL_NAME
            temperature := some cfg.DEFAULT_TEMPERATURE
            max_output_tokens := some cfg.DEFAULT_MAX_OUTPUT_TOKENS } :
              ProviderOptions Num).merged
          (profile.bind (·.provider_options))).merged options) ∧
    (∀ (cfg : CoreConfig Num)
      (profile : Option (ExtractionProfile Schema Num))
      (o : ProviderOptions Num) (t : Num), o.temperature = some t →
      (merge_options cfg profile (some o)).temperature = some t) ∧
    (∀ (cfg : CoreConfig Num) (p : ExtractionProfile Schema Num)
      (po : ProviderOptions Num) (t : Num), p.provider_options = some po →
      po.temperature = some t →
      (merge_options cfg (some p) none).temperature = some t) ∧
    (∀ cfg : CoreConfig Num,
      merge_options cfg (none : Option (ExtractionProfile Schema Num)) none =
        { model_name := some cfg.DEFAULT_MODEL_NAME
          temperature := some cfg.DEFAULT_TEMPERATURE
          max_output_tokens := some cfg.DEFAULT_MAX_OUTPUT_TOKENS }) := by
  refine ⟨?_, ?_, ?_, ?_, ?_, ?_⟩
  · intro b; rfl
  · intro b o
    refine ⟨?_, ?_, ?_, ?_, ?_, ?_, ?_, ?_, ?_, ?_⟩
    · intro t ht; simp [ProviderOptions.merged, pyNullOr, ht]
    · intro ht; simp [ProviderOptions.merged, pyNullOr, ht]
    · intro t ht; simp [ProviderOptions.merged, pyNullOr, ht]
    · intro ht; simp [ProviderOptions.merged, pyNullOr, ht]
    · intro t ht; simp [ProviderOptions.merged, pyNullOr, ht]
    · intro ht; simp [ProviderOptions.merged, pyNullOr, ht]
    · intro s hs hne; simp [ProviderOptions.merged, pyStrOr, hs, hne]
    · intro hs
      rcases hs with h | h <;> simp [ProviderOptions.merged, pyStrOr, h]
    · intro s hs hne; simp [ProviderOptions.merged, pyStrOr, hs, hne]
    · intro hs
      rcases hs with h | h <;> simp [ProviderOptions.merged, pyStrOr, h]
  · intro cfg profile options; rfl
  · intro cfg profile o t ht
    simp [merge_options, ProviderOptions.merged, pyNullOr, ht]
  · intro cfg p po t hpo ht
    simp [merge_options, ProviderOptions.merged, pyNullOr, hpo, ht]
  · intro cfg; rfl

/-- Witness for C6's amended theorem: a caller temperature wins over base,
and an empty caller model name keeps the base model name. -/
theorem c6_witness :
    (cxBase.merged (some ({ temperature := some 7 } : ProviderOptions Int))).temperature
        = some 7 ∧
    (cxBase.merged (some cxOverride)).model_name = cxBase.model_name :=
  ⟨((@c6_merged_semantics Unit Int).2.1 cxBase
      { temperature := some 7 }).1 7 rfl,
   ((@c6_merged_semantics Unit Int).2.1 cxBase cxOverride).2.2.2.2.2.2.2.1
      (Or.inr rfl)⟩

/-! ## C7 — HTTP worker-count bound -/

/-- C7 (code bug): the `/extract` handler computes its worker bound from
`cfg.default_workers` and `cfg.max_workers`, but the `ServiceConfig`
dataclass (src/service/config.py lines 12-25) defines neither attribute, so
the computation raises `AttributeError` on every request — with
`payload.workers` supplied it fails on `max_workers`, without it on
`default_workers` — instead of producing
`min(requested_workers_or_default, configured_max_workers, number_of_units)`. -/
theorem c7_worker_fields_missing :
    (∀ (val : String → Int) (w : Int) (n : Nat),
      effective_workers serviceConfigFields val (some w) n =
        Except.error "AttributeError: max_workers") ∧
    (∀ (val : String → Int) (n : Nat),
      effective_workers serviceConfigFields val none n =
        Except.error "AttributeError: default_workers") ∧
    serviceConfigFields.contains "default_workers" = false ∧
    serviceConfigFields.contains "max_workers" = false := by
  refine ⟨fun val w n => rfl, fun val n => rfl, rfl, rfl⟩

/-! ## C8 — per-file results in input order: helper lemmas -/

/-- `load_attachment` names every prepared document by `display_name`. -/
theorem load_attachment_name {Data : Type u} (env : DocEnv Data)
    (strategy : String) (doc : DocSource) :
    (load_attachment env strategy doc).name = env.display_name doc := by
  cases doc <;> simp [load_attachment] <;> split_ifs <;> rfl

/-- The per-file result list `extract` builds when no schema is configured
and the provider never fails: document `i` of the batch (0-based, provider
call offset `k`) yields the raw output of call `k + i`. -/
def expectedPerFile {Data : Type u} {Schema : Type v} {Num : Type x}
    (P : Provider Data) (options : Option (ProviderOptions Num))
    (profile : Option (ExtractionProfile Schema Num)) (d : Nat → Data) :
    List (LoadedDoc Data) → Nat → List (ExtractionResult Data)
  | [], _ => []
  | ld :: rest, k =>
      mkResult P options [ld.name] "per_file" profile (d k) (k + 1) ::
        expectedPerFile P options profile d rest (k + 1)

theorem expectedPerFile_length {Data : Type u} {Schema : Type v}
    {Num : Type x} (P : Provider Data) (options : Option (ProviderOptions Num))
    (profile : Option (ExtractionProfile Schema Num)) (d : Nat → Data) :
    ∀ (loaded : List (LoadedDoc Data)) (k : Nat),
      (expectedPerFile P options profile d loaded k).length = loaded.length
  | [], _ => rfl
  | _ :: rest, k => by
      simp [expectedPerFile,
        expectedPerFile_length P options profile d rest (k + 1)]

theorem expectedPerFile_get {Data : Type u} {Schema : Type v} {Num : Type x}
    (P : Provider Data) (options : Option (ProviderOptions Num))
    (profile : Option (ExtractionProfile Schema Num)) (d : Nat → Data) :
    ∀ (loaded : List (LoadedDoc Data)) (k i : Nat)
      (h1 : i < (expectedPerFile P options profile d loaded k).length)
      (h2 : i < loaded.length),
      (expectedPerFile P options profile d loaded k).get ⟨i, h1⟩ =
        mkResult P options [(loaded.get ⟨i, h2⟩).name] "per_file" profile
          (d (k + i)) (k + i + 1) := by
  intro loaded
  induction loaded with
  | nil => intro k i h1 h2; simp at h2
  | cons ld rest ih =>
      intro k i h1 h2
      cases i with
      | zero => simp [expectedPerFile]
      | succ j =>
          have h1' : j < (expectedPerFile P options profile d rest
              (k + 1)).length := by
            simpa [expectedPerFile] using h1
          have h2' : j < rest.length := by simpa using h2
          have := ih (k + 1) j h1' h2'
          simp only [expectedPerFile, List.get_cons_succ, this]
          congr 2 <;> omega

/-- `run_per_file` with no schema and an always-succeeding provider: one
call per document, results in input order, call counter advanced by the
batch length. -/
theorem run_per_file_no_schema {Data : Type u} {Schema : Type v}
    {Num : Type x} (E : SchemaEngine Data Schema) (P : Provider Data)
    (eff : ProviderOptions Num)
    (profile : Option (ExtractionProfile Schema Num)) (r : Int)
    (d : Nat → Data) (hgen : ∀ i, P.gen i = .ok (d i)) :
    ∀ (loaded : List (LoadedDoc Data)) (k : Nat),
      run_per_file E P none eff profile r loaded k =
        (Except.ok (expectedPerFile P (some eff) profile d loaded k),
          k + loaded.length) := by
  intro loaded
  induction loaded with
  | nil => intro k; simp [run_per_file, expectedPerFile]
  | cons ld rest ih =>
      intro k
      have hsc := single_call_no_schema E P (some eff) [ld.name] "per_file"
        profile [(ld.name, ld.content)] r k (d k) (hgen k)
      simp only [run_per_file, hsc, ih (k + 1), expectedPerFile]
      congr 1
      simp only [List.length_cons]
      omega

/-- A task tagged with its own index is found in any completion log that
contains it, and yields its own value. -/
theorem firstTagged_collect {α : Type u} (f : Nat → α) :
    ∀ (order : List Nat) (i : Nat), i ∈ order →
      firstTagged i (collectCompleted order f) = some (f i) := by
  intro order
  induction order with
  | nil => intro i hi; cases hi
  | cons j rest ih =>
      intro i hi
      by_cases hij : j = i
      · subst hij; simp [collectCompleted, firstTagged]
      · have hmem : i ∈ rest := by
          rcases List.mem_cons.mp hi with h | h
          · exact absurd h.symm hij
          · exact h
        have hrest := ih i hmem
        simp only [collectCompleted] at hrest
        simp [collectCompleted, firstTagged, hij, hrest]

/-- Gather semantics: whatever order the `n` tasks complete in (as long as
every task completes), the reassembled list is in task order `0, 1, ...`. -/
theorem reassemble_ordered {α : Type u} (n : Nat) (order : List Nat)
    (f : Nat → α) (hall : ∀ i, i < n → i ∈ order) :
    reassemble n (collectCompleted order f) =
      (List.range n).map (fun i => some (f i)) := by
  unfold reassemble
  apply List.map_congr_left
  intro i hi
  exact firstTagged_collect f order i (hall i (List.mem_range.mp hi))

/-- The response object the per_file branch builds for position `i`
(http_extract.py lines 198-204). -/
def expectedRespObj {Data : Type u} (urlp : String → String) (mu pp : String)
    (files : List DocumentRef) (res : Nat → ExtractionResult Data)
    (i : Nat) : RespObj Data :=
  { data := (res i).data
    model := mu
    docs := [doc_name urlp
      (match files[i]? with
       | some f => f.uri
       | none => "item-" ++ toString (i + 1))
      (match files[i]? with
       | some f => f.display_name
       | none => none)]
    mode := "per_file"
    profile := pp }

/-- The per_file response assembly maps an all-success gathered list (in
task order, offset `idx`) to the response objects in the same order. -/
theorem per_file_assemble_spec {Data : Type u} (urlp : String → String)
    (mu pp : String) (files : List DocumentRef)
    (res : Nat → ExtractionResult Data) (tag : Nat → String) :
    ∀ (m idx : Nat),
      per_file_assemble urlp mu pp files idx
        ((List.range' idx m).map (fun i => (tag i, some (res i), none))) =
      Except.ok
        ((List.range' idx m).map (expectedRespObj urlp mu pp files res)) := by
  intro m
  induction m with
  | zero => intro idx; rfl
  | succ mm ih =>
      intro idx
      rw [List.range'_succ]
      simp only [List.map_cons, per_file_assemble, ih (idx + 1),
        expectedRespObj]

/-- `extract` in `per_file` mode, schema-less, with an always-succeeding
provider: returns the per-file results in input order (one provider call per
document) together with the loading trace. -/
theorem extract_per_file_eq {Data : Type u} {Schema : Type v} {Dict : Type w}
    {Num : Type x} (cfg : CoreConfig Num) (E : SchemaEngine Data Schema)
    (P : Provider Data) (parse_schema : Dict → Schema) (env : DocEnv Data)
    (docs : List DocSource) (profile : Option (ExtractionProfile Schema Num))
    (options : Option (ProviderOptions Num)) (r : Int) (d : Nat → Data)
    (hgen : ∀ i, P.gen i = .ok (d i))
    (hprof : ∀ p, profile = some p → p.schema = none)
    (hne : docs ≠ []) (hlen : docs.length ≤ cfg.MAX_DOCS_PER_EXTRACTION) :
    extract cfg E P parse_schema env docs SchemaArg.none profile options
        (some "per_file") r =
      (Except.ok (.perFile (expectedPerFile P
          (some (merge_options cfg profile options)) profile d
          (docs.map (load_attachment env
            (pyStrOrD (merge_options cfg profile options).attachment_strategy
              "bytes"))) 0)),
        ⟨((docs.map (load_attachment env
            (pyStrOrD (merge_options cfg profile options).attachment_strategy
              "bytes"))).filter (·.loaded)).length, docs.length⟩) := by
  have hres : resolve_schema parse_schema SchemaArg.none profile = none := by
    cases hp : profile with
    | none => rfl
    | some p =>
        have hsch := hprof p hp
        simp [resolve_schema, resolve_schema.resolveArg, hsch]
  have hmode : resolve_multi_mode cfg profile (some "per_file") =
      Except.ok "per_file" := by
    simp [resolve_multi_mode, pyStrOrD]
  have hrun := run_per_file_no_schema E P (merge_options cfg profile options)
    profile r d hgen
    (docs.map (load_attachment env
      (pyStrOrD (merge_options cfg profile options).attachment_strategy
        "bytes"))) 0
  cases docs with
  | nil => exact absurd rfl hne
  | cons a as =>
      have hguard : ¬ (cfg.MAX_DOCS_PER_EXTRACTION < (a :: as).length) := by
        omega
      simp only [extract]
      rw [if_neg (by simp), if_neg hguard]
      rw [hres, hmode]
      simp only [hrun]
      simp

/-- C8: per-file results are assembled in the original input order,
independent of completion order, at both levels:
(core) schema-less `extract` over documents `[d1, ..., dn]` in `per_file`
mode returns a list of length `n` whose `i`-th element is the result for
document `di` (its payload is the output of the `i`-th provider call and its
meta names `di`);
(gather) whatever order the `n` handler tasks complete in, reassembling the
index-tagged completion log restores task order — the `asyncio.gather`
contract the handler relies on;
(assembly) the handler's per_file response loop maps the gathered,
task-ordered results to response objects where position `i` is built from
`files[i]` and unit `i`'s payload. -/
theorem c8_per_file_input_order {Data : Type u} {Schema : Type v}
    {Dict : Type w} {Num : Type x} (cfg : CoreConfig Num)
    (E : SchemaEngine Data Schema) (P : Provider Data)
    (parse_schema : Dict → Schema) (env : DocEnv Data) :
    (∀ (docs : List DocSource)
      (profile : Option (ExtractionProfile Schema Num))
      (options : Option (ProviderOptions Num)) (r : Int) (d : Nat → Data),
      (∀ i, P.gen i = .ok (d i)) →
      (∀ p, profile = some p → p.schema = none) →
      docs ≠ [] → docs.length ≤ cfg.MAX_DOCS_PER_EXTRACTION →
      ∃ rs,
        (extract cfg E P parse_schema env docs SchemaArg.none profile options
          (some "per_file") r).1 = Except.ok (.perFile rs) ∧
        rs.length = docs.length ∧
        (extract cfg E P parse_schema env docs SchemaArg.none profile options
          (some "per_file") r).2.provider_calls = docs.length ∧
        ∀ i (h1 : i < rs.length) (h2 : i < docs.length),
          (rs.get ⟨i, h1⟩).data = d i ∧
          (rs.get ⟨i, h1⟩).meta.docs =
            [env.display_name (docs.get ⟨i, h2⟩)]) ∧
    (∀ (n : Nat) (order : List Nat) (f : Nat → ProcOut Data),
      (∀ i, i < n → i ∈ order) →
      reassemble n (collectCompleted order f) =
        (List.range n).map (fun i => some (f i))) ∧
    (∀ (urlp : String → String) (mu pp : String) (files : List DocumentRef)
      (res : Nat → ExtractionResult Data),
      per_file_assemble urlp mu pp files 0
        ((List.range files.length).map (fun i =>
          ("item-" ++ toString (i + 1), some (res i), none))) =
        Except.ok ((List.range files.length).map
          (expectedRespObj urlp mu pp files res)) ∧
      ∀ i (h2 : i < files.length),
        expectedRespObj urlp mu pp files res i =
          { data := (res i).data
            model := mu
            docs := [doc_name urlp (files.get ⟨i, h2⟩).uri
              (files.get ⟨i, h2⟩).display_name]
            mode := "per_file"
            profile := pp }) := by
  refine ⟨?_, ?_, ?_⟩
  · intro docs profile options r d hgen hprof hne hlen
    have hext := extract_per_file_eq cfg E P parse_schema env docs profile
      options r d hgen hprof hne hlen
    refine ⟨expectedPerFile P (some (merge_options cfg profile options))
      profile d (docs.map (load_attachment env
        (pyStrOrD (merge_options cfg profile options).attachment_strategy
          "bytes"))) 0, ?_, ?_, ?_, ?_⟩
    · rw [hext]
    · rw [expectedPerFile_length, List.length_map]
    · rw [hext]
    · intro i h1 h2
      have h2' : i < (docs.map (load_attachment env
          (pyStrOrD (merge_options cfg profile options).attachment_strategy
            "bytes"))).length := by
        simpa using h2
      have hget := expectedPerFile_get P
        (some (merge_options cfg profile options)) profile d
        (docs.map (load_attachment env
          (pyStrOrD (merge_options cfg profile options).attachment_strategy
            "bytes"))) 0 i h1 h2'
      rw [hget]
      constructor
      · simp [mkResult]
      · simp only [mkResult]
        have hmap : (docs.map (load_attachment env
            (pyStrOrD (merge_options cfg profile options).attachment_strategy
              "bytes"))).get ⟨i, h2'⟩ =
            load_attachment env
              (pyStrOrD (merge_options cfg profile options).attachment_strategy
                "bytes") (docs.get ⟨i, h2⟩) := by
          simp [List.getElem_map]
        rw [hmap, load_attachment_name]
  · intro n order f hall
    exact reassemble_ordered n order f hall
  · intro urlp mu pp files res
    constructor
    · have := per_file_assemble_spec urlp mu pp files res
        (fun i => "item-" ++ toString (i + 1)) files.length 0
      rw [List.range_eq_range']
      exact this
    · intro i h2
      have : files[i]? = some (files.get ⟨i, h2⟩) := by
        simp [List.getElem?_eq_getElem]
      simp [expectedRespObj, this]

/-- `demoCfg` with room for several documents. -/
def demoCfgBig : CoreConfig Int :=
  { demoCfg with MAX_DOCS_PER_EXTRACTION := 16 }

/-- Provider stub whose `k`-th call returns `k * 10`. -/
def demoOkProvider : Provider Nat where
  gen := fun k => .ok (k * 10)
  last_model := fun _ => none
  last_usage := fun _ => none

/-- Concrete extraction results for the assembly witness. -/
def demoRes : Nat → ExtractionResult Nat :=
  fun i => ⟨i, ⟨none, none, [], "per_file", none⟩⟩

/-- Witness for C8: three documents, one provider call each; a completion
order `[2, 0, 1]` reassembles to task order; the assembly of a one-file
gathered list produces the expected response object list. -/
theorem c8_witness :
    (extract demoCfgBig demoEngine demoOkProvider (fun _ : Unit => ())
        demoEnv [DocSource.file "A", DocSource.file "B", DocSource.file "C"]
        SchemaArg.none none none (some "per_file") 0).2.provider_calls = 3 ∧
    reassemble 3 (collectCompleted [2, 0, 1]
        (fun i => ((toString i, none, none) : ProcOut Nat))) =
      (List.range 3).map
        (fun i => some ((toString i, none, none) : ProcOut Nat)) ∧
    per_file_assemble (fun s => s) "m" "p" [⟨"gs://b/x.pdf", none⟩] 0
        ((List.range 1).map (fun i =>
          ("item-" ++ toString (i + 1), some (demoRes i), none))) =
      Except.ok ((List.range 1).map
        (expectedRespObj (fun s => s) "m" "p" [⟨"gs://b/x.pdf", none⟩]
          demoRes)) := by
  obtain ⟨rs, _, _, h3, _⟩ :=
    (c8_per_file_input_order demoCfgBig demoEngine demoOkProvider
      (fun _ : Unit => ()) demoEnv).1
      [DocSource.file "A", DocSource.file "B", DocSource.file "C"] none none
      0 (fun i => i * 10) (fun i => rfl) (fun p h => by cases h) (by decide)
      (by decide)
  exact ⟨h3,
    (c8_per_file_input_order demoCfgBig demoEngine demoOkProvider
      (fun _ : Unit => ()) demoEnv).2.1 3 [2, 0, 1] _ (by decide),
    ((c8_per_file_input_order demoCfgBig demoEngine demoOkProvider
      (fun _ : Unit => ()) demoEnv).2.2 (fun s => s) "m" "p"
      [⟨"gs://b/x.pdf", none⟩] demoRes).1⟩

/-! ## C9 — local-mode client never forwards repair/workers/model/parameters -/

/-- C9: in local mode the client's `_execute` invokes the core `extract`
with `repair_attempts` left at the core default `0`, no `options`, and no
forwarding of `workers`, `model` or `parameters`:
(1) the invocation is literally `extract` on the file sources with
`options = None` and `repair_attempts = 0`, whatever the caller passed;
(2) the result is independent of the caller's `service_mode`, `workers`,
`model`, `parameters` and `repair_attempts` arguments; and
(3) with `repair_attempts = 0` a validation failure propagates after exactly
one provider call — the repair loop never executes for local-mode calls. -/
theorem c9_local_no_repair_forwarding {Data : Type u} {Schema : Type v}
    {Dict : Type w} {Num : Type x} {PDict : Type} (cfg : CoreConfig Num)
    (E : SchemaEngine Data Schema) (P : Provider Data)
    (parse_schema : Dict → Schema) (env : DocEnv Data) :
    (∀ (files : List String) (schema : SchemaArg Dict Schema)
      (profile : Option (ExtractionProfile Schema Num))
      (multi_mode : String) (sm : Option String) (w : Option Int)
      (mo : Option String) (pa : Option PDict) (r : Int),
      client_execute_local cfg E P parse_schema env files schema profile
          multi_mode sm w mo pa r =
        extract cfg E P parse_schema env (files.map DocSource.file)
          (match schema with
           | .dict dd => .internal (parse_schema dd)
           | ss => ss) profile none (some multi_mode) 0) ∧
    (∀ (files : List String) (schema : SchemaArg Dict Schema)
      (profile : Option (ExtractionProfile Schema Num))
      (multi_mode : String) (sm sm' : Option String) (w w' : Option Int)
      (mo mo' : Option String) (pa pa' : Option PDict) (r r' : Int),
      client_execute_local cfg E P parse_schema env files schema profile
          multi_mode sm w mo pa r =
        client_execute_local cfg E P parse_schema env files schema profile
          multi_mode sm' w' mo' pa' r') ∧
    (∀ (s : Schema) (opts : Option (ProviderOptions Num))
      (names : List String) (mode : String)
      (prof : Option (ExtractionProfile Schema Num))
      (atts : List (String × AttachVal Data)) (data : Data) (e : String)
      (k : Nat),
      P.gen k = .ok data → E.validate_output s data = .error e →
      single_call E P (some s) opts names mode prof atts 0 k =
        (Except.error (.validationError e), k + 1)) := by
  refine ⟨?_, ?_, ?_⟩
  · intro files schema profile multi_mode sm w mo pa r
    rfl
  · intro files schema profile multi_mode sm sm' w w' mo mo' pa pa' r r'
    rfl
  · intro s opts names mode prof atts data e k hg hv
    exact single_call_invalid_no_repair E P s opts names mode prof atts 0
      (by omega) k data e hg hv

/-- Witness for C9: a local call with `repair_attempts = 7`, explicit
workers, model and parameters is the plain `extract` call with repair `0`;
and with repair `0` an invalid output fails after exactly one call. -/
theorem c9_witness :
    client_execute_local demoCfg demoEngine demoBadProvider
        (fun _ : Unit => ()) demoEnv ["a.pdf"] SchemaArg.none none
        "per_file" (some "single") (some 9) (some "gemini-2.5-pro")
        (some (0 : Int)) 7 =
      extract demoCfg demoEngine demoBadProvider (fun _ : Unit => ())
        demoEnv [DocSource.file "a.pdf"] SchemaArg.none none none
        (some "per_file") 0 ∧
    single_call demoEngine demoBadProvider (some ())
        (none : Option (ProviderOptions Int)) [] "per_file" none [] 0 0 =
      (Except.error (.validationError "bad-1"), 0 + 1) :=
  ⟨(c9_local_no_repair_forwarding demoCfg demoEngine demoBadProvider
      (fun _ : Unit => ()) demoEnv).1 ["a.pdf"] SchemaArg.none none
      "per_file" (some "single") (some 9) (some "gemini-2.5-pro")
      (some (0 : Int)) 7,
   (@c9_local_no_repair_forwarding Nat Unit Unit Int Int demoCfg demoEngine
      demoBadProvider (fun _ : Unit => ()) demoEnv).2.2 () none []
      "per_file" none [] 1 "bad-1" 0 rfl rfl⟩

/-! ## C10 — remote-mode multi-mode mapping -/

/-- C10: in remote mode, `multi_mode = "both"` with no `service_mode`
override raises `ConfigError` before any HTTP request is sent (the payload
builder returns the error instead of a payload to post);
`"aggregate"` maps to the service mode `"single"` and `"per_file"` passes
through unchanged, both in `_map_mode` and in the posted payload. -/
theorem c10_remote_mode_mapping {GroupsTy PDict : Type} :
    (∀ (pn : String) (files : List String) (groups : Option GroupsTy)
      (ge : GroupsTy → Bool) (w : Option Int) (mo : Option String)
      (pa : List (String × Option PDict)) (r : Int),
      execute_remote_payload (some pn) "both" none files groups ge w mo pa
          r =
        Except.error (.configError
          "Remote mode does not support multi=both; use per_file or aggregate (single) or grouped")) ∧
    map_mode "aggregate" = Except.ok "single" ∧
    map_mode "per_file" = Except.ok "per_file" ∧
    (∀ (pn : String) (files : List String) (groups : Option GroupsTy)
      (ge : GroupsTy → Bool) (w : Option Int) (mo : Option String)
      (pa : List (String × Option PDict)) (r : Int),
      files ≠ [] →
      (files.all (fun f => pyStartsWith f "gs://" ||
        pyStartsWith f "http://" || pyStartsWith f "https://")) = true →
      ∃ pl, execute_remote_payload (some pn) "aggregate" none files groups
          ge w mo pa r = Except.ok pl ∧
        pl.mode = "single" ∧ pl.files = some files ∧ pl.groups = none) ∧
    (∀ (pn : String) (files : List String) (groups : Option GroupsTy)
      (ge : GroupsTy → Bool) (w : Option Int) (mo : Option String)
      (pa : List (String × Option PDict)) (r : Int),
      files ≠ [] →
      (files.all (fun f => pyStartsWith f "gs://" ||
        pyStartsWith f "http://" || pyStartsWith f "https://")) = true →
      ∃ pl, execute_remote_payload (some pn) "per_file" none files groups
          ge w mo pa r = Except.ok pl ∧
        pl.mode = "per_file" ∧ pl.files = some files ∧ pl.groups = none) := by
  refine ⟨?_, rfl, rfl, ?_, ?_⟩
  · intro pn files groups ge w mo pa r
    rfl
  · intro pn files groups ge w mo pa r hne hvalid
    refine ⟨{ profile_path := pn
              mode := "single"
              files := some files
              groups := none
              workers := w
              model := match mo with
                       | some m => if m = "" then none else some m
                       | none => none
              parameters := if (pa.filterMap (fun kv =>
                  match kv.2 with
                  | some v => some (kv.1, v)
                  | none => none)).isEmpty then none
                else some (pa.filterMap (fun kv =>
                  match kv.2 with
                  | some v => some (kv.1, v)
                  | none => none))
              repair_enabled := decide (0 < r)
              repair_max_attempts := max 1 r }, ?_, rfl, rfl, rfl⟩
    simp [execute_remote_payload, map_mode, pyLower, hvalid, hne,
      List.isEmpty_iff]
  · intro pn files groups ge w mo pa r hne hvalid
    refine ⟨{ profile_path := pn
              mode := "per_file"
              files := some files
              groups := none
              workers := w
              model := match mo with
                       | some m => if m = "" then none else some m
                       | none => none
              parameters := if (pa.filterMap (fun kv =>
                  match kv.2 with
                  | some v => some (kv.1, v)
                  | none => none)).isEmpty then none
                else some (pa.filterMap (fun kv =>
                  match kv.2 with
                  | some v => some (kv.1, v)
                  | none => none))
              repair_enabled := decide (0 < r)
              repair_max_attempts := max 1 r }, ?_, rfl, rfl, rfl⟩
    simp [execute_remote_payload, map_mode, pyLower, hvalid, hne,
      List.isEmpty_iff]

/-- Witness for C10: with profile `"invoices/extract"` and one valid
`gs://` file, `multi=both` fails with the `ConfigError` before any payload
is built, while `aggregate` and `per_file` build payloads with service modes
`"single"` and `"per_file"` respectively. -/
theorem c10_witness :
    execute_remote_payload (some "invoices/extract") "both" none
        ["gs://b/x.pdf"] (none : Option (List Nat)) (fun _ => true) none
        none ([] : List (String × Option Int)) 1 =
      Except.error (.configError
        "Remote mode does not support multi=both; use per_file or aggregate (single) or grouped") ∧
    (∃ pl, execute_remote_payload (some "invoices/extract") "aggregate" none
        ["gs://b/x.pdf"] (none : Option (List Nat)) (fun _ => true) none
        none ([] : List (String × Option Int)) 1 = Except.ok pl ∧
      pl.mode = "single" ∧ pl.files = some ["gs://b/x.pdf"] ∧
      pl.groups = none) ∧
    (∃ pl, execute_remote_payload (some "invoices/extract") "per_file" none
        ["gs://b/x.pdf"] (none : Option (List Nat)) (fun _ => true) none
        none ([] : List (String × Option Int)) 1 = Except.ok pl ∧
      pl.mode = "per_file" ∧ pl.files = some ["gs://b/x.pdf"] ∧
      pl.groups = none) :=
  ⟨(c10_remote_mode_mapping).1 "invoices/extract" ["gs://b/x.pdf"] none
      (fun _ => true) none none [] 1,
   (c10_remote_mode_mapping).2.2.2.1 "invoices/extract" ["gs://b/x.pdf"]
      none (fun _ => true) none none [] 1 (by decide) (by decide),
   (c10_remote_mode_mapping).2.2.2.2 "invoices/extract" ["gs://b/x.pdf"]
      none (fun _ => true) none none [] 1 (by decide) (by decide)⟩
